import Mathlib

/-!
Verification of the FoodBargainApp backend core: the faceted discovery
engine (`src/routes/search.ts` and the alternative search router found in
the repository, called `P4` below) and the deal lifecycle sweep
(`manageDealStatuses`).

The relational store is embedded as lists of rows; SQL queries become
list operations translated clause by clause from the drizzle query
builders in the source.  SQL `NULL` columns become `Option` values and
`NULL` comparison semantics (a comparison with `NULL` is not satisfied)
are modelled explicitly.  The haversine SQL expression is real-valued;
the search engines are therefore parameterised by the distance function
(`GeoF`), and the formula itself is embedded over `ℝ` separately
(`getDistanceSql`).
-/

namespace FoodBargain

/-- `charsLeading pat l` is true when `pat` is a leading run of `l`
(character-list prefix test used to implement substring search). -/
def charsLeading : List Char → List Char → Bool
  | [], _ => true
  | _ :: _, [] => false
  | a :: as, b :: bs => a == b && charsLeading as bs

/-- `charsSomewhere pat l` is true when `pat` occurs contiguously
somewhere inside `l`. -/
def charsSomewhere (pat : List Char) : List Char → Bool
  | [] => pat.isEmpty
  | c :: cs => charsLeading pat (c :: cs) || charsSomewhere pat cs

/-- `field ILIKE '%term%'` on a non-null column: case-insensitive
substring containment. -/
def ilikeSub (term field : String) : Bool :=
  charsSomewhere term.toLower.toList field.toLower.toList

/-- `field ILIKE '%term%'` on a nullable column: SQL yields `NULL`
(hence "not matched") when the column is `NULL`. -/
def ilikeSubOpt (term : String) (field : Option String) : Bool :=
  match field with
  | some s => ilikeSub term s
  | none => false

/-- JavaScript truthiness of a possibly-absent string (`undefined` and
`""` are falsy). -/
def strTruthy : Option String → Bool
  | none => false
  | some s => s != ""

/-- JavaScript truthiness of a possibly-absent number (`undefined` and
`0` are falsy). -/
def ratTruthy : Option ℚ → Bool
  | none => false
  | some x => x != 0

/-- SQL comparison `col <= bound` where `col` may be `NULL`: a `NULL`
left-hand side never satisfies the comparison. -/
def optLeB : Option ℚ → ℚ → Bool
  | none, _ => false
  | some d, bound => decide (d ≤ bound)

/-- Worker for `jsSetDedup`: keep elements not seen before. -/
def jsSetDedupGo (seen : List Nat) : List Nat → List Nat
  | [] => []
  | x :: xs => if seen.contains x then jsSetDedupGo seen xs else x :: jsSetDedupGo (x :: seen) xs

/-- `[...new Set(xs)]`: deduplication keeping first occurrences, as
produced by a JavaScript `Set` and by `selectDistinct`. -/
def jsSetDedup (l : List Nat) : List Nat := jsSetDedupGo [] l

/-- `ORDER BY` on a row list: a stable comparison sort (insertion
sort — SQL leaves the relative order of ties unspecified, so any stable
sort is a faithful model). -/
def orderedInsert {α : Type} (le : α → α → Bool) (a : α) : List α → List α
  | [] => [a]
  | b :: bs => if le a b then a :: b :: bs else b :: orderedInsert le a bs

/-- See `orderedInsert`. -/
def sortRowsBy {α : Type} (le : α → α → Bool) : List α → List α
  | [] => []
  | a :: as => orderedInsert le a (sortRowsBy le as)

/-- `Math.ceil(a / b)` for natural `a` and positive natural `b`, as the
JavaScript pagination code computes it. -/
def jsCeilDiv (a b : ℕ) : ℕ := (a + b - 1) / b

/-! ## Data model (from `src/db/schema.ts`)

Only the columns the discovery engine and the lifecycle sweep read or
write are carried.  Calendar dates and timestamps are integers with the
usual order. -/

/-- `deal_status` enum from the schema. -/
inductive DealStatus
  | draft
  | active
  | expired
  | archived
deriving DecidableEq

/-- A row of `partners`. -/
structure Partner where
  id : Nat
  businessName : String
deriving DecidableEq

/-- A row of `restaurants`.  `partnerId`, `description`, `latitude` and
`longitude` are nullable columns. -/
structure Restaurant where
  id : Nat
  partnerId : Option Nat
  name : String
  description : Option String
  ratingAvg : ℚ
  latitude : Option ℚ
  longitude : Option ℚ
  isActive : Bool
  createdAt : Int
deriving DecidableEq

/-- A row of `deals`.  `startDate` and `endDate` are calendar dates
(inclusive range); `partnerId` and `restaurantId` are non-null foreign
keys. -/
structure Deal where
  id : Nat
  title : String
  description : Option String
  partnerId : Nat
  restaurantId : Nat
  status : DealStatus
  startDate : Int
  endDate : Int
  createdAt : Int
  updatedAt : Int
deriving DecidableEq

/-- A row of `cuisines` or of `dietary_preferences`: an (id, name)
pair. -/
structure FacetRow where
  id : Nat
  name : String
deriving DecidableEq

/-- A row of the `deal_cuisines` junction table. -/
structure DealCuisine where
  dealId : Nat
  cuisineId : Nat
deriving DecidableEq

/-- A row of the `deal_dietary_preferences` junction table. -/
structure DealDietary where
  dealId : Nat
  dietaryPreferenceId : Nat
deriving DecidableEq

/-- A row of `user_favorite_restaurants`. -/
structure FavoriteRestaurant where
  userId : String
  restaurantId : Nat
deriving DecidableEq

/-- A row of `user_favorite_deals`. -/
structure FavoriteDeal where
  userId : String
  dealId : Nat
deriving DecidableEq

/-- The relational store visible to the discovery engine and the
lifecycle sweep. -/
structure DB where
  partners : List Partner
  restaurants : List Restaurant
  deals : List Deal
  cuisines : List FacetRow
  dietaryPreferences : List FacetRow
  dealCuisines : List DealCuisine
  dealDietaryPreferences : List DealDietary
  userFavoriteRestaurants : List FavoriteRestaurant
  userFavoriteDeals : List FavoriteDeal
deriving DecidableEq

/-! ## Deal lifecycle sweep (`manageDealStatuses`)

The sweep issues three bulk `UPDATE` statements in order.  Each is
embedded as one pass over the deals table: rows matching the phase
predicate get the new status (and a fresh `updatedAt`), and the phase
reports how many rows it moved (the length of the `returning` list). -/

/-- Phase 1 predicate: `status = 'draft' AND start_date <= today AND
end_date >= today`. -/
def phase1Pred (today : Int) (d : Deal) : Bool :=
  decide (d.status = .draft) && decide (d.startDate ≤ today) && decide (d.endDate ≥ today)

/-- Phase 2 predicate: `status = 'active' AND end_date < today`. -/
def phase2Pred (today : Int) (d : Deal) : Bool :=
  decide (d.status = .active) && decide (d.endDate < today)

/-- Phase 3 predicate: `status = 'expired' AND start_date <= today AND
end_date >= today`. -/
def phase3Pred (today : Int) (d : Deal) : Bool :=
  decide (d.status = .expired) && decide (d.startDate ≤ today) && decide (d.endDate ≥ today)

/-- `SET status = s, updated_at = CURRENT_TIMESTAMP`. -/
def setStatus (s : DealStatus) (now : Int) (d : Deal) : Deal :=
  { d with status := s, updatedAt := now }

/-- One bulk predicate-update: rows matching `pred` are rewritten by
`upd`; the count of matched rows is reported. -/
def phaseStep (pred : Deal → Bool) (upd : Deal → Deal) (d : Deal) : Deal :=
  if pred d then upd d else d

/-- Counters reported by one sweep run. -/
structure SweepStats where
  draftToActive : Nat
  activeToExpired : Nat
  expiredToActive : Nat
deriving DecidableEq

/-- The whole sweep: draft→active, then active→expired, then
expired→active, each phase reading the table as left by the previous
phase, returning the updated table and the per-phase move counts. -/
def manageDealStatuses (today now : Int) (ds : List Deal) : List Deal × SweepStats :=
  let l1 := ds.map (phaseStep (phase1Pred today) (setStatus .active now))
  let c1 := (ds.filter (phase1Pred today)).length
  let l2 := l1.map (phaseStep (phase2Pred today) (setStatus .expired now))
  let c2 := (l1.filter (phase2Pred today)).length
  let l3 := l2.map (phaseStep (phase3Pred today) (setStatus .active now))
  let c3 := (l2.filter (phase3Pred today)).length
  (l3, ⟨c1, c2, c3⟩)

/-- The effect of one sweep run on a single row (the three phases
composed in order). -/
def sweepDealRow (today now : Int) (d : Deal) : Deal :=
  phaseStep (phase3Pred today) (setStatus .active now)
    (phaseStep (phase2Pred today) (setStatus .expired now)
      (phaseStep (phase1Pred today) (setStatus .active now) d))

/-- Modelled from the spec: the transition table of §4.2 as a single
per-deal status function — draft→active when `startDate ≤ today ≤
endDate`, active→expired when `endDate < today`, expired→active when
`startDate ≤ today ≤ endDate`, archived never moves, everything else
keeps its status. -/
def specStatusStep (today : Int) (d : Deal) : DealStatus :=
  match d.status with
  | .draft => if d.startDate ≤ today ∧ today ≤ d.endDate then .active else .draft
  | .active => if d.endDate < today then .expired else .active
  | .expired => if d.startDate ≤ today ∧ today ≤ d.endDate then .active else .expired
  | .archived => .archived

/-! ## The haversine SQL expression (`getDistanceSql`,
`buildDistanceExpression`)

Both routers emit the same SQL: `6371 * acos(least(1, greatest(-1,
cos(radians(lat)) * cos(radians(targetLat)) * cos(radians(targetLng) -
radians(lng)) + sin(radians(lat)) * sin(radians(targetLat)))))`.  It is
embedded over `ℝ`. -/

/-- SQL `radians(x)`: degrees to radians. -/
noncomputable def radiansR (x : ℝ) : ℝ := x * Real.pi / 180

/-- The angular (cosine) term of the haversine expression, before
clamping. -/
noncomputable def haversineCosTerm (lat lng targetLat targetLng : ℝ) : ℝ :=
  Real.cos (radiansR lat) * Real.cos (radiansR targetLat) *
      Real.cos (radiansR targetLng - radiansR lng) +
    Real.sin (radiansR lat) * Real.sin (radiansR targetLat)

/-- `least(1, greatest(-1, ·))` applied to the angular term. -/
noncomputable def haversineClamped (lat lng targetLat targetLng : ℝ) : ℝ :=
  min 1 (max (-1) (haversineCosTerm lat lng targetLat targetLng))

/-- The full great-circle distance expression emitted by
`getDistanceSql` / `buildDistanceExpression`, in kilometres. -/
noncomputable def getDistanceSql (lat lng targetLat targetLng : ℝ) : ℝ :=
  6371 * Real.arccos (haversineClamped lat lng targetLat targetLng)

/-! ## Shared search vocabulary

The two routers agree on these shapes.  Because the SQL distance
expression is real-valued trigonometry while every predicate only ever
compares it to a bound, the engines are parameterised by the distance
function. -/

/-- The distance function parameter: viewer latitude, viewer longitude,
row latitude, row longitude, in that order. -/
def GeoF : Type := ℚ → ℚ → ℚ → ℚ → ℚ

/-- `sortOrder` query values. -/
inductive SortOrder
  | asc
  | desc
deriving DecidableEq

/-- `sortBy` values accepted by `search.ts` (`relevance` is the
default). -/
inductive SearchSort
  | relevance
  | rating
  | distance
  | newest
deriving DecidableEq

/-- Pagination metadata of a search response. -/
structure Pagination where
  currentPage : Nat
  totalPages : Nat
  totalCount : Nat
  hasNextPage : Bool
  hasPreviousPage : Bool
deriving DecidableEq

/-- A search response: a page of items plus pagination metadata. -/
structure SearchResultT (α : Type) where
  items : List α
  pagination : Pagination
deriving DecidableEq

/-- The `distanceCol` SQL expression of `search.ts` evaluated on one
restaurant row: `NULL` unless both viewer coordinates were supplied, and
`NULL` when the row lacks a coordinate (SQL arithmetic on `NULL`). -/
def rowDistance (geo : GeoF) (lat lng : Option ℚ) (r : Restaurant) : Option ℚ :=
  match lat, lng with
  | some la, some lo =>
    match r.latitude, r.longitude with
    | some rla, some rlo => some (geo la lo rla rlo)
    | _, _ => none
  | _, _ => none

/-- A nested active deal as hydrated into a restaurant card. -/
structure ActiveDealItem where
  id : Nat
  title : String
  description : Option String
  cuisines : List FacetRow
  dietaryPreferences : List FacetRow
deriving DecidableEq

/-- Cuisines hydrated for one deal: the `deal_cuisines ⋈ cuisines` rows
of that deal. -/
def cuisinesOfDeal (db : DB) (dealId : Nat) : List FacetRow :=
  (db.dealCuisines.filter (fun dc => dc.dealId == dealId)).flatMap
    (fun dc => db.cuisines.filter (fun c => c.id == dc.cuisineId))

/-- Dietary preferences hydrated for one deal. -/
def dietaryOfDeal (db : DB) (dealId : Nat) : List FacetRow :=
  (db.dealDietaryPreferences.filter (fun dd => dd.dealId == dealId)).flatMap
    (fun dd => db.dietaryPreferences.filter (fun c => c.id == dd.dietaryPreferenceId))

/-- `restaurants INNER JOIN partners ON restaurants.partner_id =
partners.id`. -/
def restaurantPartnerRows (db : DB) : List (Restaurant × Partner) :=
  db.restaurants.flatMap
    (fun r => (db.partners.filter (fun p => r.partnerId == some p.id)).map (fun p => (r, p)))

/-- `deals INNER JOIN restaurants ON deals.restaurant_id =
restaurants.id`. -/
def dealRestaurantRows (db : DB) : List (Deal × Restaurant) :=
  db.deals.flatMap
    (fun d => (db.restaurants.filter (fun r => r.id == d.restaurantId)).map (fun r => (d, r)))

/-- `deals INNER JOIN restaurants INNER JOIN partners ON
deals.partner_id = partners.id` (the page-query join of both deal
searches). -/
def dealRestaurantPartnerRows (db : DB) : List (Deal × Restaurant × Partner) :=
  (dealRestaurantRows db).flatMap
    (fun dr => (db.partners.filter (fun p => p.id == dr.1.partnerId)).map
      (fun p => (dr.1, dr.2, p)))

/-! ## `search.ts` — the mounted discovery router

`parseFilters` produces a `SearchFiltersTs`; `searchRestaurants` and
`searchDeals` run the page query and the count query off one shared
`baseQuery` and hydrate the page. -/

/-- `showType` selector. -/
inductive ShowType
  | all
  | restaurants
  | deals
deriving DecidableEq

/-- The filter record produced by `parseFilters` in `search.ts`. -/
structure SearchFiltersTs where
  query : Option String
  showType : ShowType
  cuisineIds : List Nat
  dietaryIds : List Nat
  latitude : Option ℚ
  longitude : Option ℚ
  distanceKm : Option ℚ
  page : Nat
  limit : Nat
  sortBy : SearchSort
  sortOrder : SortOrder
  hasActiveDeals : Bool
deriving DecidableEq

/-- The `dealConditions` of the facet `EXISTS` subquery in
`searchRestaurants`: the inner deal must belong to the restaurant, be
active, and carry a matching cuisine / dietary tag when those filters
are present. -/
def searchTsDealSubConds (db : DB) (f : SearchFiltersTs) (r : Restaurant) :
    List (Deal → Bool) :=
  [fun d => d.restaurantId == r.id, fun d => decide (d.status = .active)] ++
    (if f.cuisineIds.isEmpty then []
     else
       [fun d => db.dealCuisines.any
         (fun dc => dc.dealId == d.id && f.cuisineIds.contains dc.cuisineId)]) ++
    (if f.dietaryIds.isEmpty then []
     else
       [fun d => db.dealDietaryPreferences.any
         (fun dd => dd.dealId == d.id && f.dietaryIds.contains dd.dietaryPreferenceId)])

/-- The `conditions` array of `searchRestaurants`, in push order:
`isActive`, optional text match, optional distance bound (only when both
viewer coordinates are present and `distanceKm` is truthy), optional
facet/active-deal `EXISTS`. -/
def searchTsRestaurantConds (geo : GeoF) (db : DB) (f : SearchFiltersTs) :
    List (Restaurant → Partner → Bool) :=
  let textConds : List (Restaurant → Partner → Bool) :=
    if strTruthy f.query then
      [fun r p =>
        ilikeSub (f.query.getD "") r.name || ilikeSubOpt (f.query.getD "") r.description ||
          ilikeSub (f.query.getD "") p.businessName]
    else []
  let geoConds : List (Restaurant → Partner → Bool) :=
    match f.latitude, f.longitude with
    | some _, some _ =>
      if ratTruthy f.distanceKm then
        [fun r _ => optLeB (rowDistance geo f.latitude f.longitude r) (f.distanceKm.getD 0)]
      else []
    | _, _ => []
  let facetConds : List (Restaurant → Partner → Bool) :=
    if !f.cuisineIds.isEmpty || !f.dietaryIds.isEmpty || f.hasActiveDeals then
      [fun r _ => db.deals.any (fun d => (searchTsDealSubConds db f r).all (fun c => c d))]
    else []
  [fun r _ => r.isActive] ++ textConds ++ geoConds ++ facetConds

/-- `and(...conditions)` of `searchRestaurants` as one predicate on a
joined row. -/
def searchTsRestaurantPred (geo : GeoF) (db : DB) (f : SearchFiltersTs)
    (r : Restaurant) (p : Partner) : Bool :=
  (searchTsRestaurantConds geo db f).all (fun c => c r p)

/-- A row of the `searchRestaurants` base query: restaurant, partner
business name, distance column. -/
structure RestRowTs where
  restaurant : Restaurant
  partnerName : String
  distance : Option ℚ
deriving DecidableEq

/-- The `baseQuery` row set of `searchRestaurants` (also the subquery
the count query wraps). -/
def searchTsRestaurantBase (geo : GeoF) (db : DB) (f : SearchFiltersTs) : List RestRowTs :=
  ((restaurantPartnerRows db).filter (fun rp => searchTsRestaurantPred geo db f rp.1 rp.2)).map
    (fun rp => ⟨rp.1, rp.2.businessName, rowDistance geo f.latitude f.longitude rp.1⟩)

/-- The orderings a restaurant query can request. -/
inductive RestaurantOrder
  | ratingAsc
  | ratingDesc
  | distanceAsc
  | distanceDesc
  | createdAsc
  | createdDesc
deriving DecidableEq

/-- `ORDER BY col ASC` on a nullable numeric column: Postgres places
`NULL`s last in ascending order. -/
def optAscLe : Option ℚ → Option ℚ → Bool
  | none, none => true
  | none, some _ => false
  | some _, none => true
  | some a, some b => decide (a ≤ b)

/-- `ORDER BY col DESC` on a nullable numeric column: Postgres places
`NULL`s first in descending order. -/
def optDescLe : Option ℚ → Option ℚ → Bool
  | none, _ => true
  | some _, none => false
  | some a, some b => decide (b ≤ a)

/-- The `orderBy` choice of `searchRestaurants`.  In the `relevance`
default branch the code tests `filters.latitude ?`, i.e. JavaScript
numeric truthiness of the latitude. -/
def searchTsRestaurantOrder (f : SearchFiltersTs) : RestaurantOrder :=
  match f.sortBy with
  | .rating => if f.sortOrder = .asc then .ratingAsc else .ratingDesc
  | .distance => if f.sortOrder = .desc then .distanceDesc else .distanceAsc
  | .newest => if f.sortOrder = .asc then .createdAsc else .createdDesc
  | .relevance => if ratTruthy f.latitude then .distanceAsc else .ratingDesc

/-- The row comparison realising a `RestaurantOrder` on base-query
rows. -/
def restRowLe (o : RestaurantOrder) : RestRowTs → RestRowTs → Bool :=
  match o with
  | .ratingAsc => fun x y => decide (x.restaurant.ratingAvg ≤ y.restaurant.ratingAvg)
  | .ratingDesc => fun x y => decide (y.restaurant.ratingAvg ≤ x.restaurant.ratingAvg)
  | .distanceAsc => fun x y => optAscLe x.distance y.distance
  | .distanceDesc => fun x y => optDescLe x.distance y.distance
  | .createdAsc => fun x y => decide (x.restaurant.createdAt ≤ y.restaurant.createdAt)
  | .createdDesc => fun x y => decide (y.restaurant.createdAt ≤ x.restaurant.createdAt)

/-- An item of the `searchRestaurants` response. -/
structure RestItemTs where
  restaurant : Restaurant
  partnerName : String
  distanceKm : Option ℚ
  activeDeals : List ActiveDealItem
  activeDealsCount : Nat
  isBookmarked : Bool
deriving DecidableEq

/-- `searchRestaurants` of `search.ts`: the count query wraps the shared
`baseQuery`; the page is `ORDER BY … LIMIT limit OFFSET (page-1)*limit`;
hydration fetches active deals (capped at 50 across the page), their
facet tags, and — only for an authenticated viewer — the viewer's
bookmarks among the page's restaurant ids. -/
def searchRestaurants (geo : GeoF) (db : DB) (f : SearchFiltersTs)
    (userId : Option String) : SearchResultT RestItemTs :=
  let base := searchTsRestaurantBase geo db f
  let totalCount := base.length
  let totalPages := jsCeilDiv totalCount f.limit
  let rows :=
    ((sortRowsBy (restRowLe (searchTsRestaurantOrder f)) base).drop ((f.page - 1) * f.limit)).take
      f.limit
  let restaurantIds := rows.map (fun row => row.restaurant.id)
  let activeDealsRows :=
    (db.deals.filter
      (fun d => restaurantIds.contains d.restaurantId && decide (d.status = .active))).take 50
  let bookmarkedIds : List Nat :=
    match userId with
    | none => []
    | some uid =>
      (db.userFavoriteRestaurants.filter
        (fun b => b.userId == uid && restaurantIds.contains b.restaurantId)).map
        (fun b => b.restaurantId)
  { items :=
      rows.map (fun row =>
        { restaurant := row.restaurant
          partnerName := row.partnerName
          distanceKm := row.distance
          activeDeals :=
            (activeDealsRows.filter (fun d => d.restaurantId == row.restaurant.id)).map
              (fun d =>
                { id := d.id
                  title := d.title
                  description := d.description
                  cuisines := cuisinesOfDeal db d.id
                  dietaryPreferences := dietaryOfDeal db d.id })
          activeDealsCount :=
            ((activeDealsRows.filter (fun d => d.restaurantId == row.restaurant.id)).map
              (fun d => d.id)).length
          isBookmarked := bookmarkedIds.contains row.restaurant.id })
    pagination :=
      { currentPage := f.page
        totalPages := totalPages
        totalCount := totalCount
        hasNextPage := decide (f.page < totalPages)
        hasPreviousPage := decide (f.page > 1) } }

/-- The `conditions` array of `searchDeals`, in push order: active
status, optional text match (deal title, nullable deal description,
restaurant name), optional distance bound, optional cuisine `EXISTS`,
optional dietary `EXISTS`. -/
def searchTsDealConds (geo : GeoF) (db : DB) (f : SearchFiltersTs) :
    List (Deal → Restaurant → Bool) :=
  let textConds : List (Deal → Restaurant → Bool) :=
    if strTruthy f.query then
      [fun d r =>
        ilikeSub (f.query.getD "") d.title || ilikeSubOpt (f.query.getD "") d.description ||
          ilikeSub (f.query.getD "") r.name]
    else []
  let geoConds : List (Deal → Restaurant → Bool) :=
    match f.latitude, f.longitude with
    | some _, some _ =>
      if ratTruthy f.distanceKm then
        [fun _ r => optLeB (rowDistance geo f.latitude f.longitude r) (f.distanceKm.getD 0)]
      else []
    | _, _ => []
  let cuisineConds : List (Deal → Restaurant → Bool) :=
    if f.cuisineIds.isEmpty then []
    else
      [fun d _ => db.dealCuisines.any
        (fun dc => dc.dealId == d.id && f.cuisineIds.contains dc.cuisineId)]
  let dietaryConds : List (Deal → Restaurant → Bool) :=
    if f.dietaryIds.isEmpty then []
    else
      [fun d _ => db.dealDietaryPreferences.any
        (fun dd => dd.dealId == d.id && f.dietaryIds.contains dd.dietaryPreferenceId)]
  [fun d _ => decide (d.status = .active)] ++ textConds ++ geoConds ++ cuisineConds ++
    dietaryConds

/-- `and(...conditions)` of `searchDeals` as one predicate on the deal
and its restaurant (no condition mentions the partner). -/
def searchTsDealPred (geo : GeoF) (db : DB) (f : SearchFiltersTs)
    (d : Deal) (r : Restaurant) : Bool :=
  (searchTsDealConds geo db f).all (fun c => c d r)

/-- A row of the `searchDeals` base query. -/
structure DealRowTs where
  deal : Deal
  restaurant : Restaurant
  partnerName : String
  distance : Option ℚ
deriving DecidableEq

/-- The `baseQuery` row set of `searchDeals` (also the subquery the
count query wraps). -/
def searchTsDealBase (geo : GeoF) (db : DB) (f : SearchFiltersTs) : List DealRowTs :=
  ((dealRestaurantPartnerRows db).filter
    (fun x => searchTsDealPred geo db f x.1 x.2.1)).map
    (fun x => ⟨x.1, x.2.1, x.2.2.businessName, rowDistance geo f.latitude f.longitude x.2.1⟩)

/-- The orderings a deal query can request. -/
inductive DealOrder
  | distanceAsc
  | distanceDesc
  | createdAsc
  | createdDesc
deriving DecidableEq

/-- The `orderBy` choice of `searchDeals`.  `rating` falls into the
default branch (deals carry no rating), which again tests JavaScript
truthiness of `filters.latitude`. -/
def searchTsDealOrder (f : SearchFiltersTs) : DealOrder :=
  match f.sortBy with
  | .distance => if f.sortOrder = .desc then .distanceDesc else .distanceAsc
  | .newest => if f.sortOrder = .asc then .createdAsc else .createdDesc
  | _ => if ratTruthy f.latitude then .distanceAsc else .createdDesc

/-- The row comparison realising a `DealOrder` on deal base rows. -/
def dealRowLe (o : DealOrder) : DealRowTs → DealRowTs → Bool :=
  match o with
  | .distanceAsc => fun x y => optAscLe x.distance y.distance
  | .distanceDesc => fun x y => optDescLe x.distance y.distance
  | .createdAsc => fun x y => decide (x.deal.createdAt ≤ y.deal.createdAt)
  | .createdDesc => fun x y => decide (y.deal.createdAt ≤ x.deal.createdAt)

/-- An item of the `searchDeals` response. -/
structure DealItemTs where
  deal : Deal
  restaurant : Restaurant
  partnerName : String
  distanceKm : Option ℚ
  cuisines : List FacetRow
  dietaryPreferences : List FacetRow
  isBookmarked : Bool
deriving DecidableEq

/-- `searchDeals` of `search.ts`: count query off the shared
`baseQuery`, then the ordered page, then hydration of cuisines, dietary
tags and (authenticated viewers only) deal bookmarks. -/
def searchDeals (geo : GeoF) (db : DB) (f : SearchFiltersTs)
    (userId : Option String) : SearchResultT DealItemTs :=
  let base := searchTsDealBase geo db f
  let totalCount := base.length
  let totalPages := jsCeilDiv totalCount f.limit
  let rows :=
    ((sortRowsBy (dealRowLe (searchTsDealOrder f)) base).drop ((f.page - 1) * f.limit)).take
      f.limit
  let dealIds := rows.map (fun row => row.deal.id)
  let bookmarkedIds : List Nat :=
    match userId with
    | none => []
    | some uid =>
      (db.userFavoriteDeals.filter
        (fun b => b.userId == uid && dealIds.contains b.dealId)).map (fun b => b.dealId)
  { items :=
      rows.map (fun row =>
        { deal := row.deal
          restaurant := row.restaurant
          partnerName := row.partnerName
          distanceKm := row.distance
          cuisines := cuisinesOfDeal db row.deal.id
          dietaryPreferences := dietaryOfDeal db row.deal.id
          isBookmarked := bookmarkedIds.contains row.deal.id })
    pagination :=
      { currentPage := f.page
        totalPages := totalPages
        totalCount := totalCount
        hasNextPage := decide (f.page < totalPages)
        hasPreviousPage := decide (f.page > 1) } }

/-- Outcome of a route handler: an input-validation rejection or a
successful payload. -/
inductive RouteOutcome (α : Type)
  | badRequest (msg : String)
  | ok (value : α)
deriving DecidableEq

/-- Whether a route outcome is a success. -/
def RouteOutcome.isOk {α : Type} : RouteOutcome α → Bool
  | .badRequest _ => false
  | .ok _ => true

/-- The payload of the mounted `GET /api/search` handler. -/
structure TsSearchPayload where
  restaurants : SearchResultT RestItemTs
  deals : SearchResultT DealItemTs
  filtersApplied : SearchFiltersTs
deriving DecidableEq

/-- The placeholder a skipped mode gets in `search.ts`
(`{ items: [], pagination: { totalCount: 0 } }` in the source; the
missing pagination fields are zeroed here). -/
def searchTsSkipStub (α : Type) : SearchResultT α :=
  ⟨[], ⟨0, 0, 0, false, false⟩⟩

/-- The mounted `GET /api/search` handler of `search.ts`: it parses the
filters and runs both searches.  It performs no coordinate or radius
validation of any kind — every request reaches the store queries. -/
def searchTsRoute (geo : GeoF) (db : DB) (f : SearchFiltersTs)
    (userId : Option String) : RouteOutcome TsSearchPayload :=
  .ok
    { restaurants :=
        if f.showType ≠ .deals then searchRestaurants geo db f userId
        else searchTsSkipStub RestItemTs
      deals :=
        if f.showType ≠ .restaurants then searchDeals geo db f userId
        else searchTsSkipStub DealItemTs
      filtersApplied := f }

/-! ## The alternative search router (`P4`)

This router parses into a `RawSearchFilters` (facet names still
unresolved), validates the geo parameters, hydrates names to ids, and
resolves facet filters into candidate deal-id sets intersected across
categories, short-circuiting to an explicit empty result when an
intersection comes out empty. -/

/-- The `RawSearchFilters` record produced by `parseSearchFilters`.  The
parser guarantees `page ≥ 1`, `1 ≤ limit ≤ 100` and `distanceKm > 0`
when present. -/
structure RawSearchFilters where
  query : Option String
  showType : ShowType
  cuisineIds : List Nat
  cuisineNames : List String
  dietaryPreferenceIds : List Nat
  dietaryPreferenceNames : List String
  distanceKm : Option ℚ
  latitude : Option ℚ
  longitude : Option ℚ
  page : Nat
  limit : Nat
  sortBy : SearchSort
  sortOrder : SortOrder
  hasActiveDeals : Bool
deriving DecidableEq

/-- The hydrated `SearchFilters` record of the `P4` router (names
resolved away). -/
structure SearchFiltersP4 where
  query : Option String
  showType : ShowType
  cuisineIds : List Nat
  dietaryPreferenceIds : List Nat
  distanceKm : Option ℚ
  latitude : Option ℚ
  longitude : Option ℚ
  page : Nat
  limit : Nat
  sortBy : SearchSort
  sortOrder : SortOrder
  hasActiveDeals : Bool
deriving DecidableEq

/-- `hydrateSearchFilters`: when a facet category has no ids but has
names, the names are looked up (exact match) in the reference table and
replaced by the ids found — names that resolve to nothing simply yield
no ids. -/
def hydrateSearchFilters (db : DB) (raw : RawSearchFilters) : SearchFiltersP4 :=
  let cuisineIds :=
    if raw.cuisineIds.isEmpty && !raw.cuisineNames.isEmpty then
      (db.cuisines.filter (fun c => raw.cuisineNames.contains c.name)).map (fun c => c.id)
    else raw.cuisineIds
  let dietaryIds :=
    if raw.dietaryPreferenceIds.isEmpty && !raw.dietaryPreferenceNames.isEmpty then
      (db.dietaryPreferences.filter (fun c => raw.dietaryPreferenceNames.contains c.name)).map
        (fun c => c.id)
    else raw.dietaryPreferenceIds
  { query := raw.query
    showType := raw.showType
    cuisineIds := cuisineIds
    dietaryPreferenceIds := dietaryIds
    distanceKm := raw.distanceKm
    latitude := raw.latitude
    longitude := raw.longitude
    page := raw.page
    limit := raw.limit
    sortBy := raw.sortBy
    sortOrder := raw.sortOrder
    hasActiveDeals := raw.hasActiveDeals }

/-- `intersectIds`: seed a candidate set (deduplicated) or intersect a
further category into it. -/
def intersectIds : Option (List Nat) → List Nat → List Nat
  | none, next => jsSetDedup next
  | some current, next => current.filter (fun id => next.contains id)

/-- `createEmptyResult`: the explicit empty result with zeroed but valid
pagination metadata. -/
def createEmptyResult (α : Type) (f : SearchFiltersP4) : SearchResultT α :=
  ⟨[],
    { currentPage := f.page
      totalPages := 1
      totalCount := 0
      hasNextPage := false
      hasPreviousPage := decide (f.page > 1) }⟩

/-- `SELECT DISTINCT deal_id FROM deal_cuisines WHERE cuisine_id IN
ids`. -/
def p4CuisineDealMatches (db : DB) (ids : List Nat) : List Nat :=
  jsSetDedup ((db.dealCuisines.filter (fun dc => ids.contains dc.cuisineId)).map
    (fun dc => dc.dealId))

/-- `SELECT DISTINCT deal_id FROM deal_dietary_preferences WHERE
dietary_preference_id IN ids`. -/
def p4DietaryDealMatches (db : DB) (ids : List Nat) : List Nat :=
  jsSetDedup
    ((db.dealDietaryPreferences.filter (fun dd => ids.contains dd.dietaryPreferenceId)).map
      (fun dd => dd.dealId))

/-- The `whereConditions` array of the `P4` deal search, in push order:
active status, optional text match (`COALESCE` on the nullable
description), the candidate-id membership when a candidate set is
present and non-empty, and — when both viewer coordinates and a radius
were supplied — non-null row coordinates plus the distance bound. -/
def p4DealConds (geo : GeoF) (f : SearchFiltersP4) (ids : Option (List Nat)) :
    List (Deal → Restaurant → Bool) :=
  let textConds : List (Deal → Restaurant → Bool) :=
    if strTruthy f.query then
      [fun d r =>
        ilikeSub (f.query.getD "") d.title ||
          ilikeSub (f.query.getD "") (d.description.getD "") ||
          ilikeSub (f.query.getD "") r.name]
    else []
  let idConds : List (Deal → Restaurant → Bool) :=
    match ids with
    | some l => if !l.isEmpty then [fun d _ => l.contains d.id] else []
    | none => []
  let geoConds : List (Deal → Restaurant → Bool) :=
    match f.latitude, f.longitude with
    | some _, some _ =>
      match f.distanceKm with
      | some bound =>
        [fun _ r => r.latitude.isSome, fun _ r => r.longitude.isSome,
          fun _ r => optLeB (rowDistance geo f.latitude f.longitude r) bound]
      | none => []
    | _, _ => []
  [fun d _ => decide (d.status = .active)] ++ textConds ++ idConds ++ geoConds

/-- The `P4` deal-search predicate on a deal and its restaurant. -/
def p4DealPred (geo : GeoF) (f : SearchFiltersP4) (ids : Option (List Nat))
    (d : Deal) (r : Restaurant) : Bool :=
  (p4DealConds geo f ids).all (fun c => c d r)

/-- Orderings of the `P4` queries. -/
inductive OrderP4
  | ratingAsc
  | ratingDesc
  | distanceAsc
  | distanceDesc
  | createdAsc
  | createdDesc
deriving DecidableEq

/-- The `orderByClause` choice of the `P4` deal search: restaurant
rating for `rating`, distance for `distance` when a distance expression
exists (both viewer coordinates present), else deal creation time by
`sortOrder`. -/
def p4DealOrder (f : SearchFiltersP4) : OrderP4 :=
  if f.sortBy = .rating then
    if f.sortOrder = .asc then .ratingAsc else .ratingDesc
  else if f.sortBy = .distance ∧ f.latitude.isSome ∧ f.longitude.isSome then
    if f.sortOrder = .desc then .distanceDesc else .distanceAsc
  else if f.sortOrder = .asc then .createdAsc else .createdDesc

/-- A row of the `P4` deal page query. -/
structure DealRowP4 where
  deal : Deal
  restaurant : Restaurant
  partnerId : Nat
  partnerName : String
  distance : Option ℚ
deriving DecidableEq

/-- The row comparison realising an `OrderP4` on `P4` deal rows. -/
def p4DealRowLe (o : OrderP4) : DealRowP4 → DealRowP4 → Bool :=
  match o with
  | .ratingAsc => fun x y => decide (x.restaurant.ratingAvg ≤ y.restaurant.ratingAvg)
  | .ratingDesc => fun x y => decide (y.restaurant.ratingAvg ≤ x.restaurant.ratingAvg)
  | .distanceAsc => fun x y => optAscLe x.distance y.distance
  | .distanceDesc => fun x y => optDescLe x.distance y.distance
  | .createdAsc => fun x y => decide (x.deal.createdAt ≤ y.deal.createdAt)
  | .createdDesc => fun x y => decide (y.deal.createdAt ≤ x.deal.createdAt)

/-- An item of the `P4` deal-search response. -/
structure DealItemP4 where
  deal : Deal
  restaurant : Restaurant
  partnerId : Nat
  partnerName : String
  distanceKm : Option ℚ
  cuisines : List FacetRow
  dietaryPreferences : List FacetRow
  isBookmarked : Bool
deriving DecidableEq

/-- The unpaginated row set of the `P4` deal page query: deals ⋈
restaurants ⋈ partners filtered by `whereConditions` (the `ORDER BY`,
`LIMIT` and `OFFSET` are applied to this set). -/
def p4DealPageRows (geo : GeoF) (db : DB) (f : SearchFiltersP4)
    (ids : Option (List Nat)) : List DealRowP4 :=
  ((dealRestaurantPartnerRows db).filter (fun x => p4DealPred geo f ids x.1 x.2.1)).map
    (fun x =>
      ⟨x.1, x.2.1, x.2.2.id, x.2.2.businessName,
        rowDistance geo f.latitude f.longitude x.2.1⟩)

/-- The `P4` deal count query: `count(*)` over deals ⋈ restaurants (the
partners join of the page query is absent here) under the same
`whereConditions`. -/
def p4DealCount (geo : GeoF) (db : DB) (f : SearchFiltersP4)
    (ids : Option (List Nat)) : Nat :=
  ((dealRestaurantRows db).filter (fun dr => p4DealPred geo f ids dr.1 dr.2)).length

def p4DealMain (geo : GeoF) (db : DB) (f : SearchFiltersP4) (userId : Option String)
    (ids : Option (List Nat)) : SearchResultT DealItemP4 :=
  let pageRows := p4DealPageRows geo db f ids
  let totalCount := p4DealCount geo db f ids
  let totalPages := max 1 (jsCeilDiv totalCount f.limit)
  let rows :=
    ((sortRowsBy (p4DealRowLe (p4DealOrder f)) pageRows).drop ((f.page - 1) * f.limit)).take
      f.limit
  let dealIds := rows.map (fun row => row.deal.id)
  let bookmarkedIds : List Nat :=
    match userId with
    | none => []
    | some uid =>
      (db.userFavoriteDeals.filter
        (fun b => b.userId == uid && dealIds.contains b.dealId)).map (fun b => b.dealId)
  { items :=
      rows.map (fun row =>
        { deal := row.deal
          restaurant := row.restaurant
          partnerId := row.partnerId
          partnerName := row.partnerName
          distanceKm := row.distance
          cuisines := cuisinesOfDeal db row.deal.id
          dietaryPreferences := dietaryOfDeal db row.deal.id
          isBookmarked := bookmarkedIds.contains row.deal.id })
    pagination :=
      { currentPage := f.page
        totalPages := totalPages
        totalCount := totalCount
        hasNextPage := decide (f.page < totalPages)
        hasPreviousPage := decide (f.page > 1) } }

/-- The dietary stage of `getDealSearchResults`: intersect the dietary
candidates into the running set when that category is present,
short-circuiting on an empty intersection. -/
def p4DealStage2 (geo : GeoF) (db : DB) (f : SearchFiltersP4) (userId : Option String)
    (filteredDealIds : Option (List Nat)) : SearchResultT DealItemP4 :=
  if f.dietaryPreferenceIds.isEmpty then p4DealMain geo db f userId filteredDealIds
  else
    let ids := intersectIds filteredDealIds (p4DietaryDealMatches db f.dietaryPreferenceIds)
    if ids.isEmpty then createEmptyResult DealItemP4 f
    else p4DealMain geo db f userId (some ids)

/-- `getDealSearchResults`: resolve the cuisine candidates (if that
category is present), short-circuit on an empty intersection, then the
dietary stage, then the main query. -/
def getDealSearchResults (geo : GeoF) (db : DB) (f : SearchFiltersP4)
    (userId : Option String) : SearchResultT DealItemP4 :=
  if f.cuisineIds.isEmpty then p4DealStage2 geo db f userId none
  else
    let ids := intersectIds none (p4CuisineDealMatches db f.cuisineIds)
    if ids.isEmpty then createEmptyResult DealItemP4 f
    else p4DealStage2 geo db f userId (some ids)

/-- The `whereConditions` array of the `P4` restaurant search, in push
order: `isActive`, optional text match, the candidate-id membership when
present and non-empty.  No distance condition is ever pushed in this
mode. -/
def p4RestaurantConds (f : SearchFiltersP4) (ids : Option (List Nat)) :
    List (Restaurant → Partner → Bool) :=
  let textConds : List (Restaurant → Partner → Bool) :=
    if strTruthy f.query then
      [fun r p =>
        ilikeSub (f.query.getD "") r.name || ilikeSub (f.query.getD "") p.businessName ||
          ilikeSub (f.query.getD "") (r.description.getD "")]
    else []
  let idConds : List (Restaurant → Partner → Bool) :=
    match ids with
    | some l => if !l.isEmpty then [fun r _ => l.contains r.id] else []
    | none => []
  [fun r _ => r.isActive] ++ textConds ++ idConds

/-- The `P4` restaurant-search predicate on a restaurant and its
partner. -/
def p4RestaurantPred (f : SearchFiltersP4) (ids : Option (List Nat))
    (r : Restaurant) (p : Partner) : Bool :=
  (p4RestaurantConds f ids).all (fun c => c r p)

/-- The `orderByClause` choice of the `P4` restaurant search. -/
def p4RestaurantOrder (f : SearchFiltersP4) : OrderP4 :=
  if f.sortBy = .rating then
    if f.sortOrder = .asc then .ratingAsc else .ratingDesc
  else if f.sortBy = .distance ∧ f.latitude.isSome ∧ f.longitude.isSome then
    if f.sortOrder = .desc then .distanceDesc else .distanceAsc
  else if f.sortOrder = .asc then .createdAsc else .createdDesc

/-- A row of the `P4` restaurant page query. -/
structure RestRowP4 where
  restaurant : Restaurant
  partnerName : String
  distance : Option ℚ
deriving DecidableEq

/-- The row comparison realising an `OrderP4` on `P4` restaurant
rows. -/
def p4RestRowLe (o : OrderP4) : RestRowP4 → RestRowP4 → Bool :=
  match o with
  | .ratingAsc => fun x y => decide (x.restaurant.ratingAvg ≤ y.restaurant.ratingAvg)
  | .ratingDesc => fun x y => decide (y.restaurant.ratingAvg ≤ x.restaurant.ratingAvg)
  | .distanceAsc => fun x y => optAscLe x.distance y.distance
  | .distanceDesc => fun x y => optDescLe x.distance y.distance
  | .createdAsc => fun x y => decide (x.restaurant.createdAt ≤ y.restaurant.createdAt)
  | .createdDesc => fun x y => decide (y.restaurant.createdAt ≤ x.restaurant.createdAt)

/-- An item of the `P4` restaurant-search response. -/
structure RestItemP4 where
  restaurant : Restaurant
  partnerName : String
  distanceKm : Option ℚ
  activeDeals : List ActiveDealItem
  activeDealsCount : Nat
  isBookmarked : Bool
deriving DecidableEq

/-- The unpaginated row set of the `P4` restaurant page query:
restaurants ⋈ partners filtered by `whereConditions`. -/
def p4RestaurantPageRows (geo : GeoF) (db : DB) (f : SearchFiltersP4)
    (ids : Option (List Nat)) : List RestRowP4 :=
  ((restaurantPartnerRows db).filter (fun rp => p4RestaurantPred f ids rp.1 rp.2)).map
    (fun rp =>
      ⟨rp.1, rp.2.businessName, rowDistance geo f.latitude f.longitude rp.1⟩)

/-- The `P4` restaurant count query: `count(*)` over the same
restaurants ⋈ partners join under the same `whereConditions` as the
page query. -/
def p4RestaurantCount (db : DB) (f : SearchFiltersP4) (ids : Option (List Nat)) : Nat :=
  ((restaurantPartnerRows db).filter (fun rp => p4RestaurantPred f ids rp.1 rp.2)).length

def p4RestaurantMain (geo : GeoF) (db : DB) (f : SearchFiltersP4) (userId : Option String)
    (ids : Option (List Nat)) : SearchResultT RestItemP4 :=
  let pageRows := p4RestaurantPageRows geo db f ids
  let totalCount := p4RestaurantCount db f ids
  let totalPages := max 1 (jsCeilDiv totalCount f.limit)
  let rows :=
    ((sortRowsBy (p4RestRowLe (p4RestaurantOrder f)) pageRows).drop ((f.page - 1) * f.limit)).take
      f.limit
  let restaurantIds := rows.map (fun row => row.restaurant.id)
  let activeDealsRows :=
    db.deals.filter
      (fun d => restaurantIds.contains d.restaurantId && decide (d.status = .active))
  let bookmarkedIds : List Nat :=
    match userId with
    | none => []
    | some uid =>
      (db.userFavoriteRestaurants.filter
        (fun b => b.userId == uid && restaurantIds.contains b.restaurantId)).map
        (fun b => b.restaurantId)
  { items :=
      rows.map (fun row =>
        { restaurant := row.restaurant
          partnerName := row.partnerName
          distanceKm := row.distance
          activeDeals :=
            (activeDealsRows.filter (fun d => d.restaurantId == row.restaurant.id)).map
              (fun d =>
                { id := d.id
                  title := d.title
                  description := d.description
                  cuisines := cuisinesOfDeal db d.id
                  dietaryPreferences := dietaryOfDeal db d.id })
          activeDealsCount :=
            ((activeDealsRows.filter (fun d => d.restaurantId == row.restaurant.id)).map
              (fun d => d.id)).length
          isBookmarked := bookmarkedIds.contains row.restaurant.id })
    pagination :=
      { currentPage := f.page
        totalPages := totalPages
        totalCount := totalCount
        hasNextPage := decide (f.page < totalPages)
        hasPreviousPage := decide (f.page > 1) } }

/-- `getRestaurantSearchResults`: when `hasActiveDeals` is set, the
candidate restaurant ids (distinct restaurants with an active deal) are
resolved first, short-circuiting to the empty result when there are
none. -/
def getRestaurantSearchResults (geo : GeoF) (db : DB) (f : SearchFiltersP4)
    (userId : Option String) : SearchResultT RestItemP4 :=
  if f.hasActiveDeals then
    let ids :=
      intersectIds none
        ((db.deals.filter (fun d => decide (d.status = .active))).map (fun d => d.restaurantId))
    if ids.isEmpty then createEmptyResult RestItemP4 f
    else p4RestaurantMain geo db f userId (some ids)
  else p4RestaurantMain geo db f userId none

/-- The payload of the `P4` `GET /` search handler. -/
structure P4SearchPayload where
  restaurants : SearchResultT RestItemP4
  deals : SearchResultT DealItemP4
deriving DecidableEq

/-- The geo validation chain at the top of the `P4` `GET /` handler, in
source order; `none` means the request passes validation. -/
def p4GeoValidation (raw : RawSearchFilters) : Option String :=
  if raw.latitude.isNone != raw.longitude.isNone then
    some "Both latitude and longitude are required for location-based search"
  else if
      (match raw.latitude with
       | some la => decide (la < -90) || decide (la > 90)
       | none => false) then
    some "Latitude must be between -90 and 90"
  else if
      (match raw.longitude with
       | some lo => decide (lo < -180) || decide (lo > 180)
       | none => false) then
    some "Longitude must be between -180 and 180"
  else if raw.distanceKm.isSome && raw.latitude.isNone then
    some "Distance filtering requires both latitude and longitude"
  else none

/-- The `P4` `GET /` handler: validate the geo parameters (rejecting
with 400 before any store access), hydrate the filters, then run the
two searches according to `showType`. -/
def p4SearchRoute (geo : GeoF) (db : DB) (raw : RawSearchFilters)
    (userId : Option String) : RouteOutcome P4SearchPayload :=
  match p4GeoValidation raw with
  | some msg => .badRequest msg
  | none =>
    let f := hydrateSearchFilters db raw
    .ok
      { restaurants :=
          if f.showType ≠ .deals then getRestaurantSearchResults geo db f userId
          else createEmptyResult RestItemP4 f
        deals :=
          if f.showType ≠ .restaurants then getDealSearchResults geo db f userId
          else createEmptyResult DealItemP4 f }

/-! ## Exhaustive page-row sets of the `P4` searches

The unpaginated result set the page query would produce, staged exactly
like the corresponding search function (including the facet
short-circuits, which produce no page query at all — an empty set). -/

/-- Exhaustive page rows of `getRestaurantSearchResults`. -/
def getRestaurantSearchCandidates (geo : GeoF) (db : DB) (f : SearchFiltersP4) :
    List RestRowP4 :=
  if f.hasActiveDeals then
    let ids :=
      intersectIds none
        ((db.deals.filter (fun d => decide (d.status = .active))).map (fun d => d.restaurantId))
    if ids.isEmpty then []
    else p4RestaurantPageRows geo db f (some ids)
  else p4RestaurantPageRows geo db f none

/-- Exhaustive page rows of the dietary stage of
`getDealSearchResults`. -/
def getDealStage2Candidates (geo : GeoF) (db : DB) (f : SearchFiltersP4)
    (filteredDealIds : Option (List Nat)) : List DealRowP4 :=
  if f.dietaryPreferenceIds.isEmpty then p4DealPageRows geo db f filteredDealIds
  else
    let ids := intersectIds filteredDealIds (p4DietaryDealMatches db f.dietaryPreferenceIds)
    if ids.isEmpty then []
    else p4DealPageRows geo db f (some ids)

/-- Exhaustive page rows of `getDealSearchResults`. -/
def getDealSearchCandidates (geo : GeoF) (db : DB) (f : SearchFiltersP4) :
    List DealRowP4 :=
  if f.cuisineIds.isEmpty then getDealStage2Candidates geo db f none
  else
    let ids := intersectIds none (p4CuisineDealMatches db f.cuisineIds)
    if ids.isEmpty then []
    else getDealStage2Candidates geo db f (some ids)

/-- Referential integrity of `deals.partner_id` (a non-null foreign key
into `partners`, whose `id` is the primary key): every deal matches
exactly one partner row.  The database schema enforces this on every
reachable store state. -/
def dealPartnerIntegrity (db : DB) : Bool :=
  db.deals.all (fun d => (db.partners.filter (fun p => p.id == d.partnerId)).length == 1)

/-- The final facet candidate set of `getDealSearchResults` as an
`Option`: `none` when no facet category was present, otherwise the
intersection of the per-category candidate deal-id sets (possibly
empty). -/
def p4FilteredDealIds (db : DB) (f : SearchFiltersP4) : Option (List Nat) :=
  let afterCuisine : Option (List Nat) :=
    if f.cuisineIds.isEmpty then none
    else some (intersectIds none (p4CuisineDealMatches db f.cuisineIds))
  if f.dietaryPreferenceIds.isEmpty then afterCuisine
  else some (intersectIds afterCuisine (p4DietaryDealMatches db f.dietaryPreferenceIds))

/-! ## Concrete fixtures -/

/-- A distance function that is constantly zero. -/
def geoZero : GeoF := fun _ _ _ _ => 0

/-- A distance function that is constantly 100 km. -/
def geoHundred : GeoF := fun _ _ _ _ => 100

/-- A sample partner row. -/
def partner₁ : Partner := ⟨1, "Partner One"⟩

/-- A sample active restaurant with coordinates, owned by
`partner₁`. -/
def restaurant₁ : Restaurant :=
  { id := 1
    partnerId := some 1
    name := "Resto"
    description := none
    ratingAvg := 0
    latitude := some 0
    longitude := some 0
    isActive := true
    createdAt := 0 }

/-- A sample active deal at `restaurant₁`. -/
def deal₁ : Deal :=
  { id := 1
    title := "Deal"
    description := none
    partnerId := 1
    restaurantId := 1
    status := .active
    startDate := 0
    endDate := 1
    createdAt := 0
    updatedAt := 0 }

/-- A one-partner, one-restaurant, one-active-deal store. -/
def sampleDb : DB :=
  { partners := [partner₁]
    restaurants := [restaurant₁]
    deals := [deal₁]
    cuisines := []
    dietaryPreferences := []
    dealCuisines := []
    dealDietaryPreferences := []
    userFavoriteRestaurants := []
    userFavoriteDeals := []}

/-- The defaults `parseFilters` produces for a bare request. -/
def defaultFiltersTs : SearchFiltersTs :=
  { query := none
    showType := .all
    cuisineIds := []
    dietaryIds := []
    latitude := none
    longitude := none
    distanceKm := none
    page := 1
    limit := 20
    sortBy := .relevance
    sortOrder := .desc
    hasActiveDeals := false }

/-- The defaults the `P4` parser and hydrator produce for a bare
request. -/
def defaultFiltersP4 : SearchFiltersP4 :=
  { query := none
    showType := .all
    cuisineIds := []
    dietaryPreferenceIds := []
    distanceKm := none
    latitude := none
    longitude := none
    page := 1
    limit := 20
    sortBy := .relevance
    sortOrder := .desc
    hasActiveDeals := false }

/-- Default raw filters of the `P4` parser (facet names still
unresolved). -/
def defaultRawFilters : RawSearchFilters :=
  { query := none
    showType := .all
    cuisineIds := []
    cuisineNames := []
    dietaryPreferenceIds := []
    dietaryPreferenceNames := []
    distanceKm := none
    latitude := none
    longitude := none
    page := 1
    limit := 20
    sortBy := .relevance
    sortOrder := .desc
    hasActiveDeals := false }

/-- An entirely empty store. -/
def emptyDb : DB := ⟨[], [], [], [], [], [], [], [], []⟩

/-- A second sample restaurant. -/
def restaurant₂ : Restaurant :=
  { restaurant₁ with id := 2, name := "Resto Two", ratingAvg := 3 }

/-- A third sample restaurant. -/
def restaurant₃ : Restaurant :=
  { restaurant₁ with id := 3, name := "Resto Three", ratingAvg := 4 }

/-- A store with three active restaurants under one partner and one
active deal. -/
def db₃ : DB :=
  { sampleDb with restaurants := [restaurant₁, restaurant₂, restaurant₃] }

/-- Raw `P4` filters supplying only a cuisine *name* that resolves to no
canonical id. -/
def rawThai : RawSearchFilters := { defaultRawFilters with cuisineNames := ["Thai"] }

/-- `search.ts` filters for a radius-bounded search: viewer at (10, 10)
with a 1 km radius. -/
def fGeoTs : SearchFiltersTs :=
  { defaultFiltersTs with latitude := some 10, longitude := some 10, distanceKm := some 1 }

/-- `P4` filters for a radius-bounded search: viewer at (10, 10) with a
1 km radius. -/
def fGeoP4 : SearchFiltersP4 :=
  { defaultFiltersP4 with latitude := some 10, longitude := some 10, distanceKm := some 1 }

/-- `search.ts` filters requesting page 5 at the default limit 20. -/
def fPage5Ts : SearchFiltersTs := { defaultFiltersTs with page := 5 }

/-- `P4` filters requesting page 5 at the default limit 20. -/
def fPage5P4 : SearchFiltersP4 := { defaultFiltersP4 with page := 5 }

/-- `search.ts` filters with relevance sort and a viewer at latitude
exactly 0. -/
def fLat0 : SearchFiltersTs :=
  { defaultFiltersTs with latitude := some 0, longitude := some 5 }

/-- `search.ts` filters with relevance sort and a viewer at latitude
43. -/
def fLat43 : SearchFiltersTs :=
  { defaultFiltersTs with latitude := some 43, longitude := some 5 }

/-- `search.ts` filters carrying an out-of-range latitude (200) and no
longitude — the kind of request the spec says must be rejected. -/
def fBadLatTs : SearchFiltersTs := { defaultFiltersTs with latitude := some 200 }

/-- Raw `P4` filters carrying an out-of-range latitude (200). -/
def rawBadLat : RawSearchFilters :=
  { defaultRawFilters with latitude := some 200, longitude := some 0 }

/-! ## Helper lemmas -/

/-- Membership is preserved by `orderedInsert`. -/
theorem mem_orderedInsert {α : Type} (le : α → α → Bool) (a x : α) (l : List α) :
    x ∈ orderedInsert le a l ↔ x = a ∨ x ∈ l := by
  induction l with
  | nil => simp [orderedInsert]
  | cons b bs ih =>
    unfold orderedInsert
    split
    · simp
    · simp [ih]
      tauto

/-- Membership is preserved by the `ORDER BY` sort. -/
theorem mem_sortRowsBy {α : Type} (le : α → α → Bool) (l : List α) (x : α) :
    x ∈ sortRowsBy le l ↔ x ∈ l := by
  induction l with
  | nil => simp [sortRowsBy]
  | cons a as ih => simp [sortRowsBy, mem_orderedInsert, ih]

/-- `orderedInsert` adds exactly one element. -/
theorem length_orderedInsert {α : Type} (le : α → α → Bool) (a : α) (l : List α) :
    (orderedInsert le a l).length = l.length + 1 := by
  induction l with
  | nil => rfl
  | cons b bs ih =>
    unfold orderedInsert
    split
    · simp
    · simp [ih]

/-- The `ORDER BY` sort preserves length. -/
theorem length_sortRowsBy {α : Type} (le : α → α → Bool) (l : List α) :
    (sortRowsBy le l).length = l.length := by
  induction l with
  | nil => rfl
  | cons a as ih => simp [sortRowsBy, length_orderedInsert, ih]

/-- An element of a sorted-then-paged slice comes from the underlying
list. -/
theorem mem_of_mem_pageSlice {α : Type} {le : α → α → Bool} {l : List α} {n m : ℕ} {x : α}
    (hx : x ∈ ((sortRowsBy le l).drop n).take m) : x ∈ l :=
  (mem_sortRowsBy le l x).1 (List.mem_of_mem_drop (List.mem_of_mem_take hx))

/-- Filtering a one-to-one `flatMap` expansion by a predicate that
ignores the expansion component preserves the filtered length. -/
theorem length_filter_flatMap_one {α β γ : Type} (l : List α) (g : α → List β)
    (mk : α → β → γ) (q : γ → Bool) (p : α → Bool)
    (hq : ∀ a b, q (mk a b) = p a)
    (hg : ∀ a ∈ l, (g a).length = 1) :
    ((l.flatMap (fun a => (g a).map (mk a))).filter q).length = (l.filter p).length := by
  induction l with
  | nil => rfl
  | cons a t ih =>
    have hga := hg a (List.mem_cons_self a t)
    have iht := ih (fun x hx => hg x (List.mem_cons_of_mem a hx))
    have hhead : (((g a).map (mk a)).filter q).length = if p a then (g a).length else 0 := by
      cases hpa : p a with
      | false =>
        have hnil : ((g a).map (mk a)).filter q = [] := by
          refine List.filter_eq_nil_iff.2 ?_
          intro c hc
          rcases List.mem_map.1 hc with ⟨b, _, rfl⟩
          simp [hq a b, hpa]
        simp [hnil]
      | true =>
        have hall : ((g a).map (mk a)).filter q = (g a).map (mk a) := by
          refine List.filter_eq_self.2 ?_
          intro c hc
          rcases List.mem_map.1 hc with ⟨b, _, rfl⟩
          simp [hq a b, hpa]
        simp [hall]
    simp only [List.flatMap_cons, List.filter_append, List.length_append, hhead,
      List.filter_cons]
    cases hpa : p a <;> simp [hpa, iht, hga]
    omega

/-- The deal component of a deals ⋈ restaurants join row is a row of
the deals table. -/
theorem fst_mem_deals_of_mem_join {db : DB} {x : Deal × Restaurant}
    (hx : x ∈ dealRestaurantRows db) : x.1 ∈ db.deals := by
  rcases List.mem_flatMap.1 hx with ⟨d, hd, hmem⟩
  rcases List.mem_map.1 hmem with ⟨r, _, rfl⟩
  exact hd

/-- Under referential integrity of `deals.partner_id`, the `P4` deal
count query (joins deals ⋈ restaurants only) agrees with the exhaustive
size of the page query (which additionally joins partners). -/
theorem p4DealCount_eq_pageRows (geo : GeoF) (db : DB) (f : SearchFiltersP4)
    (ids : Option (List Nat)) (hfk : dealPartnerIntegrity db = true) :
    p4DealCount geo db f ids = (p4DealPageRows geo db f ids).length := by
  have hg : ∀ dr ∈ dealRestaurantRows db,
      (db.partners.filter (fun p => p.id == dr.1.partnerId)).length = 1 := by
    intro dr hdr
    have hd := List.all_eq_true.1 hfk dr.1 (fst_mem_deals_of_mem_join hdr)
    simpa using hd
  have key := length_filter_flatMap_one (dealRestaurantRows db)
    (fun dr => db.partners.filter (fun p => p.id == dr.1.partnerId))
    (fun dr p => (dr.1, dr.2, p))
    (fun x => p4DealPred geo f ids x.1 x.2.1)
    (fun dr => p4DealPred geo f ids dr.1 dr.2)
    (fun _ _ => rfl) hg
  unfold p4DealCount p4DealPageRows dealRestaurantPartnerRows
  rw [List.length_map]
  exact key.symm

/-- A map that fixes every element of a list is the identity on it. -/
theorem map_fixed_of_mem {α : Type} (l : List α) (f : α → α) (h : ∀ x ∈ l, f x = x) :
    l.map f = l := by
  induction l with
  | nil => rfl
  | cons a t ih =>
    simp only [List.map_cons]
    rw [h a (by simp), ih (fun x hx => h x (by simp [hx]))]

/-- The status of a deal after one sweep run is exactly the
specification's transition function. -/
theorem sweepDealRow_status (today now : Int) (d : Deal) :
    (sweepDealRow today now d).status = specStatusStep today d := by
  unfold sweepDealRow specStatusStep phaseStep phase1Pred phase2Pred phase3Pred setStatus
  cases hs : d.status <;> simp [hs] <;> split_ifs <;> simp_all <;> omega

/-- After one sweep run no phase predicate holds on any row. -/
theorem sweepDealRow_preds_false (today now : Int) (d : Deal) :
    phase1Pred today (sweepDealRow today now d) = false ∧
      phase2Pred today (sweepDealRow today now d) = false ∧
      phase3Pred today (sweepDealRow today now d) = false := by
  unfold sweepDealRow phaseStep phase1Pred phase2Pred phase3Pred setStatus
  cases hs : d.status <;> simp [hs] <;> split_ifs <;> simp_all <;> omega

/-! ## Claim theorems -/

/-- C1: in every discovery mode the reported `totalCount` equals the
number of rows satisfying the page query's predicate when enumerated
exhaustively (the unpaginated page row set).  In `search.ts` both
queries share one `baseQuery`; in the `P4` router the restaurant count
query repeats the page query's joins and conditions, while the deal
count query omits the partners join — there equality additionally needs
the schema-enforced referential integrity of `deals.partner_id`. -/
theorem totalCount_matches_page_predicate (geo : GeoF) (db : DB)
    (fts : SearchFiltersTs) (fp4 : SearchFiltersP4) (uid : Option String)
    (hfk : dealPartnerIntegrity db = true) :
    (searchRestaurants geo db fts uid).pagination.totalCount =
        ((restaurantPartnerRows db).filter
          (fun rp => searchTsRestaurantPred geo db fts rp.1 rp.2)).length ∧
      (searchDeals geo db fts uid).pagination.totalCount =
        ((dealRestaurantPartnerRows db).filter
          (fun x => searchTsDealPred geo db fts x.1 x.2.1)).length ∧
      (getRestaurantSearchResults geo db fp4 uid).pagination.totalCount =
        (getRestaurantSearchCandidates geo db fp4).length ∧
      (getDealSearchResults geo db fp4 uid).pagination.totalCount =
        (getDealSearchCandidates geo db fp4).length := by
  refine ⟨?_, ?_, ?_, ?_⟩
  · simp [searchRestaurants, searchTsRestaurantBase]
  · simp [searchDeals, searchTsDealBase]
  · unfold getRestaurantSearchResults getRestaurantSearchCandidates
    dsimp only
    split_ifs <;>
      simp [createEmptyResult, p4RestaurantMain, p4RestaurantCount, p4RestaurantPageRows]
  · have hcnt : ∀ ids, p4DealCount geo db fp4 ids = (p4DealPageRows geo db fp4 ids).length :=
      fun ids => p4DealCount_eq_pageRows geo db fp4 ids hfk
    unfold getDealSearchResults getDealSearchCandidates p4DealStage2 getDealStage2Candidates
    dsimp only
    split_ifs <;> simp [createEmptyResult, p4DealMain, hcnt]

/-- Witness for C1: the count/page agreement instantiated on the sample
store (which satisfies the referential-integrity hypothesis) with
default filters. -/
theorem totalCount_matches_page_predicate_witness :
    (searchRestaurants geoZero sampleDb defaultFiltersTs none).pagination.totalCount =
        ((restaurantPartnerRows sampleDb).filter
          (fun rp => searchTsRestaurantPred geoZero sampleDb defaultFiltersTs rp.1 rp.2)).length ∧
      (searchDeals geoZero sampleDb defaultFiltersTs none).pagination.totalCount =
        ((dealRestaurantPartnerRows sampleDb).filter
          (fun x => searchTsDealPred geoZero sampleDb defaultFiltersTs x.1 x.2.1)).length ∧
      (getRestaurantSearchResults geoZero sampleDb defaultFiltersP4 none).pagination.totalCount =
        (getRestaurantSearchCandidates geoZero sampleDb defaultFiltersP4).length ∧
      (getDealSearchResults geoZero sampleDb defaultFiltersP4 none).pagination.totalCount =
        (getDealSearchCandidates geoZero sampleDb defaultFiltersP4).length :=
  totalCount_matches_page_predicate geoZero sampleDb defaultFiltersTs defaultFiltersP4 none
    (by decide)


/-- C4: one run of the deal-status sweep performs exactly the three
date-driven transitions of the specification's table: the resulting
table is the per-row composition of the three phases, and the resulting
status of every row is `specStatusStep` — draft→active and
expired→active when `startDate ≤ today ≤ endDate`, active→expired when
`endDate < today`, archived and every non-matching row keep their
status. -/
theorem sweep_three_transitions (today now : Int) (ds : List Deal) :
    (manageDealStatuses today now ds).1 = ds.map (sweepDealRow today now) ∧
      (manageDealStatuses today now ds).1.map (fun d => d.status) =
        ds.map (specStatusStep today) := by
  constructor
  · simp [manageDealStatuses, sweepDealRow, List.map_map]
  · simp only [manageDealStatuses, List.map_map]
    apply List.map_congr_left
    intro d _
    exact sweepDealRow_status today now d

/-- C5: running the sweep twice in succession (same current date)
produces zero transitions on the second run: the table after one sweep
is a fixed point and every phase counter of the second run is zero. -/
theorem sweep_idempotent (today now now₂ : Int) (ds : List Deal) :
    manageDealStatuses today now₂ (manageDealStatuses today now ds).1 =
      ((manageDealStatuses today now ds).1, ⟨0, 0, 0⟩) := by
  have hfirst : (manageDealStatuses today now ds).1 = ds.map (sweepDealRow today now) := by
    simp [manageDealStatuses, sweepDealRow, List.map_map]
  rw [hfirst]
  have hmem :
      ∀ x ∈ ds.map (sweepDealRow today now),
        phase1Pred today x = false ∧ phase2Pred today x = false ∧
          phase3Pred today x = false := by
    intro x hx
    rcases List.mem_map.1 hx with ⟨d, _, rfl⟩
    exact sweepDealRow_preds_false today now d
  have h1 : ∀ x ∈ ds.map (sweepDealRow today now),
      phaseStep (phase1Pred today) (setStatus .active now₂) x = x := by
    intro x hx
    simp [phaseStep, (hmem x hx).1]
  have hfix1 :
      (ds.map (sweepDealRow today now)).map
          (phaseStep (phase1Pred today) (setStatus .active now₂)) =
        ds.map (sweepDealRow today now) := map_fixed_of_mem _ _ h1
  have h2 : ∀ x ∈ ds.map (sweepDealRow today now),
      phaseStep (phase2Pred today) (setStatus .expired now₂) x = x := by
    intro x hx
    simp [phaseStep, (hmem x hx).2.1]
  have hfix2 :
      (ds.map (sweepDealRow today now)).map
          (phaseStep (phase2Pred today) (setStatus .expired now₂)) =
        ds.map (sweepDealRow today now) := map_fixed_of_mem _ _ h2
  have h3 : ∀ x ∈ ds.map (sweepDealRow today now),
      phaseStep (phase3Pred today) (setStatus .active now₂) x = x := by
    intro x hx
    simp [phaseStep, (hmem x hx).2.2]
  have hfix3 :
      (ds.map (sweepDealRow today now)).map
          (phaseStep (phase3Pred today) (setStatus .active now₂)) =
        ds.map (sweepDealRow today now) := map_fixed_of_mem _ _ h3
  have hc1 : (ds.map (sweepDealRow today now)).filter (phase1Pred today) = [] :=
    List.filter_eq_nil_iff.2 (fun x hx => by simp [(hmem x hx).1])
  have hc2 : (ds.map (sweepDealRow today now)).filter (phase2Pred today) = [] :=
    List.filter_eq_nil_iff.2 (fun x hx => by simp [(hmem x hx).2.1])
  have hc3 : (ds.map (sweepDealRow today now)).filter (phase3Pred today) = [] :=
    List.filter_eq_nil_iff.2 (fun x hx => by simp [(hmem x hx).2.2])
  simp only [manageDealStatuses, hfix1, hfix2, hfix3, hc1, hc2, hc3, List.length_nil]

/-- C9: the embedded great-circle distance expression is symmetric in
its two coordinate pairs, returns 0 on two equal points, and its
intermediate angular (cosine) term is clamped into `[-1, 1]` before
`acos` is applied. -/
theorem distance_symm_zero_clamped :
    (∀ a₁ a₂ b₁ b₂ : ℝ, getDistanceSql a₁ a₂ b₁ b₂ = getDistanceSql b₁ b₂ a₁ a₂) ∧
      (∀ a b : ℝ, getDistanceSql a b a b = 0) ∧
      (∀ a₁ a₂ b₁ b₂ : ℝ,
        -1 ≤ haversineClamped a₁ a₂ b₁ b₂ ∧ haversineClamped a₁ a₂ b₁ b₂ ≤ 1) := by
  have hterm : ∀ a₁ a₂ b₁ b₂ : ℝ,
      haversineCosTerm a₁ a₂ b₁ b₂ = haversineCosTerm b₁ b₂ a₁ a₂ := by
    intro a₁ a₂ b₁ b₂
    unfold haversineCosTerm
    rw [show radiansR b₂ - radiansR a₂ = -(radiansR a₂ - radiansR b₂) by ring, Real.cos_neg]
    ring
  refine ⟨?_, ?_, ?_⟩
  · intro a₁ a₂ b₁ b₂
    unfold getDistanceSql haversineClamped
    rw [hterm]
  · intro a b
    have hone : haversineCosTerm a b a b = 1 := by
      unfold haversineCosTerm
      rw [sub_self, Real.cos_zero]
      have h := Real.sin_sq_add_cos_sq (radiansR a)
      nlinarith [h]
    unfold getDistanceSql haversineClamped
    rw [hone]
    norm_num [Real.arccos_one]
  · intro a₁ a₂ b₁ b₂
    unfold haversineClamped
    constructor
    · exact le_min (by norm_num) (le_max_left _ _)
    · exact min_le_left _ _

/-- C2 counterexample: a search supplying only the cuisine *name*
"Thai" — which resolves to no canonical id against the sample store —
does not short-circuit to the empty result: the hydrated id list is
empty, the facet filter is dropped, and the unfiltered deal query
returns the store's active deal (`totalCount = 1`, non-empty items),
falsifying the claim that such a search yields `items = []` and
`totalCount = 0`. -/
theorem facet_names_dropped_counterexample :
    rawThai.cuisineNames ≠ [] ∧
      (hydrateSearchFilters sampleDb rawThai).cuisineIds = [] ∧
      (getDealSearchResults geoZero sampleDb (hydrateSearchFilters sampleDb rawThai)
            none).pagination.totalCount = 1 ∧
      (getDealSearchResults geoZero sampleDb (hydrateSearchFilters sampleDb rawThai)
            none).items ≠ [] := by
  decide

/-- C2 amended: when at least one facet category filter is present
*after hydration* as a non-empty canonical id list and the per-category
candidate deal-id sets intersect to the empty set, the deal search
short-circuits to the explicit empty result (items `[]`, `totalCount`
0, valid pagination) without running the main query; facet names that
resolve to no ids, however, leave the hydrated id list empty and the
category filter is dropped. -/
theorem facet_empty_intersection_short_circuit (geo : GeoF) (db : DB) (f : SearchFiltersP4)
    (uid : Option String)
    (hfacet : f.cuisineIds ≠ [] ∨ f.dietaryPreferenceIds ≠ [])
    (hempty : p4FilteredDealIds db f = some []) :
    getDealSearchResults geo db f uid = createEmptyResult DealItemP4 f ∧
      (getDealSearchResults geo db f uid).items = [] ∧
      (getDealSearchResults geo db f uid).pagination.totalCount = 0 := by
  have hmain : getDealSearchResults geo db f uid = createEmptyResult DealItemP4 f := by
    unfold getDealSearchResults p4DealStage2
    unfold p4FilteredDealIds at hempty
    dsimp only at hempty ⊢
    by_cases hc : f.cuisineIds.isEmpty
    · by_cases hd : f.dietaryPreferenceIds.isEmpty
      · exfalso
        rcases hfacet with h | h
        · exact h (List.isEmpty_iff.1 hc)
        · exact h (List.isEmpty_iff.1 hd)
      · simp only [hc, hd, if_true, if_false, Bool.false_eq_true, Option.some.injEq] at hempty
        simp [hc, hd, hempty]
    · by_cases hic : (intersectIds none (p4CuisineDealMatches db f.cuisineIds)).isEmpty
      · simp [hc, hic]
      · by_cases hd : f.dietaryPreferenceIds.isEmpty
        · exfalso
          simp only [hc, hd, if_true, if_false, Bool.false_eq_true, Option.some.injEq] at hempty
          rw [hempty] at hic
          simp at hic
        · simp only [hc, hd, if_true, if_false, Bool.false_eq_true, Option.some.injEq] at hempty
          simp [hc, hic, hd, hempty]
  exact ⟨hmain, by rw [hmain]; rfl, by rw [hmain]; rfl⟩

/-- Witness for C2 (amended): a canonical cuisine id filter that
matches no deal short-circuits the deal search on the sample store. -/
theorem facet_empty_intersection_short_circuit_witness :
    ({ defaultFiltersP4 with cuisineIds := [1] } : SearchFiltersP4).cuisineIds ≠ [] ∧
      p4FilteredDealIds sampleDb { defaultFiltersP4 with cuisineIds := [1] } = some [] ∧
      (getDealSearchResults geoZero sampleDb { defaultFiltersP4 with cuisineIds := [1] } none =
          createEmptyResult DealItemP4 { defaultFiltersP4 with cuisineIds := [1] } ∧
        (getDealSearchResults geoZero sampleDb { defaultFiltersP4 with cuisineIds := [1] }
              none).items = [] ∧
        (getDealSearchResults geoZero sampleDb { defaultFiltersP4 with cuisineIds := [1] }
              none).pagination.totalCount = 0) :=
  ⟨by decide, by decide,
    facet_empty_intersection_short_circuit geoZero sampleDb
      { defaultFiltersP4 with cuisineIds := [1] } none (Or.inl (by decide)) (by decide)⟩

/-- A row passing the `search.ts` restaurant predicate under a supplied
non-zero radius satisfies the distance bound. -/
theorem searchTsRestaurantPred_dist (geo : GeoF) (db : DB) (f : SearchFiltersTs)
    (la lo ρ : ℚ) (hlat : f.latitude = some la) (hlng : f.longitude = some lo)
    (hdist : f.distanceKm = some ρ) (hρ : ρ ≠ 0) (r : Restaurant) (p : Partner)
    (hpred : searchTsRestaurantPred geo db f r p = true) :
    optLeB (rowDistance geo f.latitude f.longitude r) ρ = true := by
  unfold searchTsRestaurantPred searchTsRestaurantConds at hpred
  rw [hlat, hlng] at hpred ⊢
  rw [hdist] at hpred
  have htr : ratTruthy (some ρ) = true := by simp [ratTruthy, hρ]
  simp only [htr, if_true, List.all_append, List.all_cons, List.all_nil, Bool.and_eq_true,
    Option.getD_some, and_true] at hpred
  tauto

/-- A row passing the `search.ts` deal predicate under a supplied
non-zero radius satisfies the distance bound. -/
theorem searchTsDealPred_dist (geo : GeoF) (db : DB) (f : SearchFiltersTs)
    (la lo ρ : ℚ) (hlat : f.latitude = some la) (hlng : f.longitude = some lo)
    (hdist : f.distanceKm = some ρ) (hρ : ρ ≠ 0) (d : Deal) (r : Restaurant)
    (hpred : searchTsDealPred geo db f d r = true) :
    optLeB (rowDistance geo f.latitude f.longitude r) ρ = true := by
  unfold searchTsDealPred searchTsDealConds at hpred
  rw [hlat, hlng] at hpred ⊢
  rw [hdist] at hpred
  have htr : ratTruthy (some ρ) = true := by simp [ratTruthy, hρ]
  simp only [htr, if_true, List.all_append, List.all_cons, List.all_nil, Bool.and_eq_true,
    Option.getD_some, and_true] at hpred
  tauto

/-- A row passing the `P4` deal predicate under a supplied radius
satisfies the distance bound (for any candidate-id set). -/
theorem p4DealPred_dist (geo : GeoF) (f : SearchFiltersP4) (ids : Option (List Nat))
    (la lo ρ : ℚ) (hlat : f.latitude = some la) (hlng : f.longitude = some lo)
    (hdist : f.distanceKm = some ρ) (d : Deal) (r : Restaurant)
    (hpred : p4DealPred geo f ids d r = true) :
    optLeB (rowDistance geo f.latitude f.longitude r) ρ = true := by
  unfold p4DealPred p4DealConds at hpred
  rw [hlat, hlng] at hpred ⊢
  rw [hdist] at hpred
  simp only [List.all_append, List.all_cons, List.all_nil, Bool.and_eq_true,
    Option.getD_some, and_true] at hpred
  tauto

/-- Every item of a `P4` deal main-query page satisfies the distance
bound when a radius was supplied. -/
theorem p4DealMain_items_dist (geo : GeoF) (db : DB) (f : SearchFiltersP4)
    (uid : Option String) (ids : Option (List Nat)) (la lo ρ : ℚ)
    (hlat : f.latitude = some la) (hlng : f.longitude = some lo)
    (hdist : f.distanceKm = some ρ) :
    ∀ it ∈ (p4DealMain geo db f uid ids).items, optLeB it.distanceKm ρ = true := by
  intro it hit
  rcases List.mem_map.1 hit with ⟨row, hrow, rfl⟩
  have hbase : row ∈ p4DealPageRows geo db f ids := mem_of_mem_pageSlice hrow
  unfold p4DealPageRows at hbase
  rcases List.mem_map.1 hbase with ⟨x, hx, rfl⟩
  have hpred := (List.mem_filter.1 hx).2
  exact p4DealPred_dist geo f ids la lo ρ hlat hlng hdist x.1 x.2.1 hpred

/-- C3 counterexample: the `P4` restaurant search ignores the radius
entirely — with viewer coordinates and a 1 km radius supplied, a
restaurant whose computed distance is 100 km is still returned (and
counted), falsifying the claim for the restaurant-search mode. -/
theorem radius_ignored_p4_restaurants_counterexample :
    fGeoP4.latitude = some 10 ∧ fGeoP4.longitude = some 10 ∧ fGeoP4.distanceKm = some 1 ∧
      ((getRestaurantSearchResults geoHundred sampleDb fGeoP4 none).items.map
        (fun it => it.distanceKm)) = [some 100] ∧
      (getRestaurantSearchResults geoHundred sampleDb fGeoP4 none).pagination.totalCount = 1 ∧
      ¬((100 : ℚ) ≤ 1) := by
  decide

/-- C3 amended: for a radius-bounded search with a non-zero radius,
every returned item has a defined distance at most the radius, and every
candidate join row whose distance is undefined (missing coordinates) or
exceeds the radius fails the shared page/count predicate — in both
`search.ts` modes and in the `P4` deal mode.  The `P4` restaurant mode
applies no radius bound at all (see the counterexample), and a radius of
exactly 0 is dropped by `search.ts` through JavaScript truthiness. -/
theorem radius_bound_enforced (geo : GeoF) (db : DB) (fts : SearchFiltersTs)
    (fp4 : SearchFiltersP4) (uid : Option String) (la lo ρ la₂ lo₂ ρ₂ : ℚ)
    (hlat : fts.latitude = some la) (hlng : fts.longitude = some lo)
    (hdist : fts.distanceKm = some ρ) (hρ : ρ ≠ 0)
    (hlat₂ : fp4.latitude = some la₂) (hlng₂ : fp4.longitude = some lo₂)
    (hdist₂ : fp4.distanceKm = some ρ₂) :
    (∀ it ∈ (searchRestaurants geo db fts uid).items, optLeB it.distanceKm ρ = true) ∧
      (∀ rp ∈ restaurantPartnerRows db, searchTsRestaurantPred geo db fts rp.1 rp.2 = true →
        optLeB (rowDistance geo fts.latitude fts.longitude rp.1) ρ = true) ∧
      (∀ it ∈ (searchDeals geo db fts uid).items, optLeB it.distanceKm ρ = true) ∧
      (∀ x ∈ dealRestaurantPartnerRows db, searchTsDealPred geo db fts x.1 x.2.1 = true →
        optLeB (rowDistance geo fts.latitude fts.longitude x.2.1) ρ = true) ∧
      (∀ it ∈ (getDealSearchResults geo db fp4 uid).items, optLeB it.distanceKm ρ₂ = true) ∧
      (∀ ids d r, p4DealPred geo fp4 ids d r = true →
        optLeB (rowDistance geo fp4.latitude fp4.longitude r) ρ₂ = true) := by
  refine ⟨?_, ?_, ?_, ?_, ?_, ?_⟩
  · intro it hit
    unfold searchRestaurants at hit
    rcases List.mem_map.1 hit with ⟨row, hrow, rfl⟩
    have hbase : row ∈ searchTsRestaurantBase geo db fts := mem_of_mem_pageSlice hrow
    unfold searchTsRestaurantBase at hbase
    rcases List.mem_map.1 hbase with ⟨rp, hrp, rfl⟩
    have hpred := (List.mem_filter.1 hrp).2
    exact searchTsRestaurantPred_dist geo db fts la lo ρ hlat hlng hdist hρ rp.1 rp.2 hpred
  · intro rp _ hpred
    exact searchTsRestaurantPred_dist geo db fts la lo ρ hlat hlng hdist hρ rp.1 rp.2 hpred
  · intro it hit
    unfold searchDeals at hit
    rcases List.mem_map.1 hit with ⟨row, hrow, rfl⟩
    have hbase : row ∈ searchTsDealBase geo db fts := mem_of_mem_pageSlice hrow
    unfold searchTsDealBase at hbase
    rcases List.mem_map.1 hbase with ⟨x, hx, rfl⟩
    have hpred := (List.mem_filter.1 hx).2
    exact searchTsDealPred_dist geo db fts la lo ρ hlat hlng hdist hρ x.1 x.2.1 hpred
  · intro x _ hpred
    exact searchTsDealPred_dist geo db fts la lo ρ hlat hlng hdist hρ x.1 x.2.1 hpred
  · unfold getDealSearchResults p4DealStage2
    dsimp only
    split_ifs <;>
      first
        | (intro it hit; exact absurd hit (by simp [createEmptyResult]))
        | exact p4DealMain_items_dist geo db fp4 uid _ la₂ lo₂ ρ₂ hlat₂ hlng₂ hdist₂
  · intro ids d r hpred
    exact p4DealPred_dist geo fp4 ids la₂ lo₂ ρ₂ hlat₂ hlng₂ hdist₂ d r hpred

/-- Witness for C3 (amended): the bound instantiated at the sample
store with viewer (10, 10), radius 1 and the constantly-zero distance
function. -/
theorem radius_bound_enforced_witness :
    fGeoTs.distanceKm = some 1 ∧ (1 : ℚ) ≠ 0 ∧
      ((∀ it ∈ (searchRestaurants geoZero sampleDb fGeoTs none).items,
          optLeB it.distanceKm 1 = true) ∧
        (∀ rp ∈ restaurantPartnerRows sampleDb,
          searchTsRestaurantPred geoZero sampleDb fGeoTs rp.1 rp.2 = true →
            optLeB (rowDistance geoZero fGeoTs.latitude fGeoTs.longitude rp.1) 1 = true) ∧
        (∀ it ∈ (searchDeals geoZero sampleDb fGeoTs none).items,
          optLeB it.distanceKm 1 = true) ∧
        (∀ x ∈ dealRestaurantPartnerRows sampleDb,
          searchTsDealPred geoZero sampleDb fGeoTs x.1 x.2.1 = true →
            optLeB (rowDistance geoZero fGeoTs.latitude fGeoTs.longitude x.2.1) 1 = true) ∧
        (∀ it ∈ (getDealSearchResults geoZero sampleDb fGeoP4 none).items,
          optLeB it.distanceKm 1 = true) ∧
        (∀ ids d r, p4DealPred geoZero fGeoP4 ids d r = true →
          optLeB (rowDistance geoZero fGeoP4.latitude fGeoP4.longitude r) 1 = true)) :=
  ⟨rfl, by norm_num,
    radius_bound_enforced geoZero sampleDb fGeoTs fGeoP4 none 10 10 1 10 10 1 rfl rfl rfl
      (by norm_num) rfl rfl rfl⟩

/-- `Math.ceil(0 / b) = 0`. -/
theorem jsCeilDiv_zero_left (b : ℕ) : jsCeilDiv 0 b = 0 := by
  unfold jsCeilDiv
  cases b with
  | zero => rfl
  | succ k => exact Nat.div_eq_of_lt (by omega)

/-- For positive `b`, the integer computation `(a + b - 1) / b` is the
ceiling of the rational division `a / b`. -/
theorem jsCeilDiv_eq_ceil (a b : ℕ) (hb : 0 < b) :
    jsCeilDiv a b = ⌈(a : ℚ) / (b : ℚ)⌉₊ := by
  have hbq : (0 : ℚ) < (b : ℚ) := by exact_mod_cast hb
  apply le_antisymm
  · have h1 := Nat.le_ceil ((a : ℚ) / (b : ℚ))
    rw [div_le_iff hbq] at h1
    have h2 : a ≤ ⌈(a : ℚ) / (b : ℚ)⌉₊ * b := by exact_mod_cast h1
    rw [Nat.mul_comm] at h2
    unfold jsCeilDiv
    rw [Nat.div_le_iff_le_mul_add_pred hb]
    omega
  · rw [Nat.ceil_le, div_le_iff hbq]
    have key : a ≤ jsCeilDiv a b * b := by
      unfold jsCeilDiv
      rw [Nat.mul_comm]
      have hdm := Nat.div_add_mod (a + b - 1) b
      have hmod : (a + b - 1) % b < b := Nat.mod_lt _ hb
      omega
    exact_mod_cast key

/-- Dropping past the end of a sorted row list leaves an empty page. -/
theorem page_slice_empty {α : Type} (le : α → α → Bool) (l : List α) (off lim : ℕ)
    (h : l.length ≤ off) : ((sortRowsBy le l).drop off).take lim = [] := by
  rw [List.drop_eq_nil_of_le (by rw [length_sortRowsBy]; exact h)]
  exact List.take_nil

/-- C6 counterexample: against an empty store, the mounted `search.ts`
engine reports `totalPages = 0` — not `max(1, ceil(totalCount / limit))
= 1` as the claim states (the floor at 1 exists only in the `P4`
engine). -/
theorem totalPages_missing_floor_counterexample :
    (searchRestaurants geoZero emptyDb defaultFiltersTs none).pagination.totalCount = 0 ∧
      (searchRestaurants geoZero emptyDb defaultFiltersTs none).pagination.totalPages = 0 ∧
      (searchRestaurants geoZero emptyDb defaultFiltersTs none).pagination.totalPages ≠
        max 1
          (jsCeilDiv
            (searchRestaurants geoZero emptyDb defaultFiltersTs none).pagination.totalCount
            defaultFiltersTs.limit) := by
  decide

/-- C6 amended: the `P4` engine satisfies `totalPages = max(1,
ceil(totalCount / limit))` exactly, the mounted `search.ts` engine
computes `totalPages = ceil(totalCount / limit)` with no floor at 1;
all four engines satisfy `hasNextPage = currentPage < totalPages` and
`hasPreviousPage = currentPage > 1`, and a page number beyond the last
page yields `items = []` with the same valid metadata, never an error.
`jsCeilDiv` is the rational ceiling for positive limits. -/
theorem pagination_metadata_laws (geo : GeoF) (db : DB) (fts : SearchFiltersTs)
    (fp4 : SearchFiltersP4) (uid : Option String) (hp4 : 1 ≤ fp4.page)
    (hfk : dealPartnerIntegrity db = true) :
    ((getRestaurantSearchResults geo db fp4 uid).pagination.totalPages =
        max 1
          (jsCeilDiv (getRestaurantSearchResults geo db fp4 uid).pagination.totalCount
            fp4.limit) ∧
      (getRestaurantSearchResults geo db fp4 uid).pagination.hasNextPage =
        decide ((getRestaurantSearchResults geo db fp4 uid).pagination.currentPage <
          (getRestaurantSearchResults geo db fp4 uid).pagination.totalPages) ∧
      (getRestaurantSearchResults geo db fp4 uid).pagination.hasPreviousPage =
        decide (1 < (getRestaurantSearchResults geo db fp4 uid).pagination.currentPage)) ∧
      ((getDealSearchResults geo db fp4 uid).pagination.totalPages =
        max 1
          (jsCeilDiv (getDealSearchResults geo db fp4 uid).pagination.totalCount fp4.limit) ∧
      (getDealSearchResults geo db fp4 uid).pagination.hasNextPage =
        decide ((getDealSearchResults geo db fp4 uid).pagination.currentPage <
          (getDealSearchResults geo db fp4 uid).pagination.totalPages) ∧
      (getDealSearchResults geo db fp4 uid).pagination.hasPreviousPage =
        decide (1 < (getDealSearchResults geo db fp4 uid).pagination.currentPage)) ∧
      ((searchRestaurants geo db fts uid).pagination.totalPages =
        jsCeilDiv (searchRestaurants geo db fts uid).pagination.totalCount fts.limit ∧
      (searchRestaurants geo db fts uid).pagination.hasNextPage =
        decide ((searchRestaurants geo db fts uid).pagination.currentPage <
          (searchRestaurants geo db fts uid).pagination.totalPages) ∧
      (searchRestaurants geo db fts uid).pagination.hasPreviousPage =
        decide (1 < (searchRestaurants geo db fts uid).pagination.currentPage) ∧
      (searchDeals geo db fts uid).pagination.totalPages =
        jsCeilDiv (searchDeals geo db fts uid).pagination.totalCount fts.limit ∧
      (searchDeals geo db fts uid).pagination.hasNextPage =
        decide ((searchDeals geo db fts uid).pagination.currentPage <
          (searchDeals geo db fts uid).pagination.totalPages) ∧
      (searchDeals geo db fts uid).pagination.hasPreviousPage =
        decide (1 < (searchDeals geo db fts uid).pagination.currentPage)) ∧
      ((searchRestaurants geo db fts uid).pagination.totalCount ≤
          (fts.page - 1) * fts.limit → (searchRestaurants geo db fts uid).items = []) ∧
      ((searchDeals geo db fts uid).pagination.totalCount ≤ (fts.page - 1) * fts.limit →
        (searchDeals geo db fts uid).items = []) ∧
      ((getRestaurantSearchResults geo db fp4 uid).pagination.totalCount ≤
          (fp4.page - 1) * fp4.limit → (getRestaurantSearchResults geo db fp4 uid).items = []) ∧
      ((getDealSearchResults geo db fp4 uid).pagination.totalCount ≤
          (fp4.page - 1) * fp4.limit → (getDealSearchResults geo db fp4 uid).items = []) ∧
      (∀ a b : ℕ, 0 < b → jsCeilDiv a b = ⌈(a : ℚ) / (b : ℚ)⌉₊) := by
  have hprev : decide (1 < fp4.page) = decide (1 < fp4.page) := rfl
  refine ⟨?_, ?_, ?_, ?_, ?_, ?_, ?_, ?_⟩
  · unfold getRestaurantSearchResults
    dsimp only
    split_ifs <;>
      simp [createEmptyResult, p4RestaurantMain, jsCeilDiv_zero_left, Nat.lt_irrefl, hp4,
        Nat.not_lt.2 hp4]
  · unfold getDealSearchResults p4DealStage2
    dsimp only
    split_ifs <;>
      simp [createEmptyResult, p4DealMain, jsCeilDiv_zero_left, Nat.lt_irrefl, hp4,
        Nat.not_lt.2 hp4]
  · exact ⟨rfl, rfl, rfl, rfl, rfl, rfl⟩
  · intro h
    unfold searchRestaurants at h ⊢
    dsimp only at h ⊢
    rw [page_slice_empty _ _ _ _ h]
    rfl
  · intro h
    unfold searchDeals at h ⊢
    dsimp only at h ⊢
    rw [page_slice_empty _ _ _ _ h]
    rfl
  · intro h
    unfold getRestaurantSearchResults at h ⊢
    dsimp only at h ⊢
    split_ifs at h ⊢ <;> try rfl
    all_goals
      unfold p4RestaurantMain at h ⊢
      dsimp only at h ⊢
      rw [page_slice_empty _ _ _ _ (by
        rw [p4RestaurantPageRows, List.length_map]
        exact h)]
      rfl
  · intro h
    unfold getDealSearchResults p4DealStage2 at h ⊢
    dsimp only at h ⊢
    split_ifs at h ⊢ <;> try rfl
    all_goals
      unfold p4DealMain at h ⊢
      dsimp only at h ⊢
      rw [page_slice_empty _ _ _ _ (by
        rw [← p4DealCount_eq_pageRows geo db fp4 _ hfk]
        exact h)]
      rfl
  · intro a b hb
    exact jsCeilDiv_eq_ceil a b hb

/-- Witness for C6 (amended): the out-of-range scenario — page 5, limit
20, three matching rows — yields `items = []`, `totalPages = 1`,
`hasNextPage = false`, `hasPreviousPage = true`. -/
theorem pagination_metadata_laws_witness :
    1 ≤ fPage5P4.page ∧ dealPartnerIntegrity db₃ = true ∧
      (searchRestaurants geoZero db₃ fPage5Ts none).pagination.totalCount = 3 ∧
      (searchRestaurants geoZero db₃ fPage5Ts none).pagination.totalPages = 1 ∧
      (searchRestaurants geoZero db₃ fPage5Ts none).pagination.hasNextPage = false ∧
      (searchRestaurants geoZero db₃ fPage5Ts none).pagination.hasPreviousPage = true ∧
      (searchRestaurants geoZero db₃ fPage5Ts none).items = [] ∧
      (getRestaurantSearchResults geoZero db₃ fPage5P4 none).items = [] :=
  ⟨by decide, by decide, by decide, by decide, by decide, by decide,
    (pagination_metadata_laws geoZero db₃ fPage5Ts fPage5P4 none (by decide)
          (by decide)).2.2.2.1 (by decide),
    (pagination_metadata_laws geoZero db₃ fPage5Ts fPage5P4 none (by decide)
          (by decide)).2.2.2.2.2.1 (by decide)⟩

/-- C7: anonymous discovery is independent of the bookmark tables —
replacing both favorites tables by arbitrary contents leaves every
anonymous response unchanged in all four engines — and every item of an
anonymous response has `isBookmarked = false`. -/
theorem anonymous_no_bookmarks (geo : GeoF) (db : DB) (favR : List FavoriteRestaurant)
    (favD : List FavoriteDeal) (fts : SearchFiltersTs) (fp4 : SearchFiltersP4) :
    searchRestaurants geo
        { db with userFavoriteRestaurants := favR, userFavoriteDeals := favD } fts none =
      searchRestaurants geo db fts none ∧
      searchDeals geo
          { db with userFavoriteRestaurants := favR, userFavoriteDeals := favD } fts none =
        searchDeals geo db fts none ∧
      getRestaurantSearchResults geo
          { db with userFavoriteRestaurants := favR, userFavoriteDeals := favD } fp4 none =
        getRestaurantSearchResults geo db fp4 none ∧
      getDealSearchResults geo
          { db with userFavoriteRestaurants := favR, userFavoriteDeals := favD } fp4 none =
        getDealSearchResults geo db fp4 none ∧
      (searchRestaurants geo db fts none).items.all
          (fun it => it.isBookmarked == false) = true ∧
      (searchDeals geo db fts none).items.all (fun it => it.isBookmarked == false) = true ∧
      (getRestaurantSearchResults geo db fp4 none).items.all
          (fun it => it.isBookmarked == false) = true ∧
      (getDealSearchResults geo db fp4 none).items.all
          (fun it => it.isBookmarked == false) = true := by
  refine ⟨rfl, rfl, rfl, rfl, ?_, ?_, ?_, ?_⟩
  · unfold searchRestaurants
    dsimp only
    simp only [List.all_eq_true]
    intro it hit
    rcases List.mem_map.1 hit with ⟨row, _, rfl⟩
    rfl
  · unfold searchDeals
    dsimp only
    simp only [List.all_eq_true]
    intro it hit
    rcases List.mem_map.1 hit with ⟨row, _, rfl⟩
    rfl
  · unfold getRestaurantSearchResults
    dsimp only
    split_ifs <;>
      first
        | rfl
        | (unfold p4RestaurantMain
           dsimp only
           simp only [List.all_eq_true]
           intro it hit
           rcases List.mem_map.1 hit with ⟨row, _, rfl⟩
           rfl)
  · unfold getDealSearchResults p4DealStage2
    dsimp only
    split_ifs <;>
      first
        | rfl
        | (unfold p4DealMain
           dsimp only
           simp only [List.all_eq_true]
           intro it hit
           rcases List.mem_map.1 hit with ⟨row, _, rfl⟩
           rfl)

/-- C8 counterexample: the mounted `search.ts` route performs no geo
validation at all — a request carrying latitude 200 (out of range) with
no longitude is not rejected: the handler returns a success and the
store query runs, returning the sample restaurant. -/
theorem searchTs_route_no_geo_validation_counterexample :
    fBadLatTs.latitude = some 200 ∧ fBadLatTs.longitude = none ∧ ¬((200 : ℚ) ≤ 90) ∧
      (searchTsRoute geoZero sampleDb fBadLatTs none).isOk = true ∧
      (searchRestaurants geoZero sampleDb fBadLatTs none).items.length = 1 := by
  decide

/-- C8 amended: the `P4` route handler rejects each of the four invalid
geo shapes (one coordinate without the other; latitude outside
[-90, 90]; longitude outside [-180, 180]; radius without both
coordinates) with a 400 before hydrating filters or running any store
query; the mounted `search.ts` handler performs no such validation (see
the counterexample). -/
theorem p4_route_rejects_invalid_geo (geo : GeoF) (db : DB) (raw : RawSearchFilters)
    (uid : Option String)
    (hbad : raw.latitude.isSome ≠ raw.longitude.isSome ∨
      (∃ la, raw.latitude = some la ∧ (la < -90 ∨ la > 90)) ∨
      (∃ lo, raw.longitude = some lo ∧ (lo < -180 ∨ lo > 180)) ∨
      (raw.distanceKm.isSome = true ∧ (raw.latitude = none ∨ raw.longitude = none))) :
    ∃ msg, p4SearchRoute geo db raw uid = RouteOutcome.badRequest msg := by
  cases hv : p4GeoValidation raw with
  | some msg =>
    exact ⟨msg, by unfold p4SearchRoute; rw [hv]⟩
  | none =>
    exfalso
    unfold p4GeoValidation at hv
    split_ifs at hv with h1 h2 h3 h4
    rcases hbad with h | ⟨la, hla, hr⟩ | ⟨lo, hlo, hr⟩ | ⟨hd, hc⟩
    · apply h
      cases hlat : raw.latitude <;> cases hlng : raw.longitude <;> simp_all
    · rw [hla] at h2
      simp at h2
      rcases hr with hr | hr
      · exact absurd hr (not_lt.2 h2.1)
      · exact absurd hr (not_lt.2 h2.2)
    · rw [hlo] at h3
      simp at h3
      rcases hr with hr | hr
      · exact absurd hr (not_lt.2 h3.1)
      · exact absurd hr (not_lt.2 h3.2)
    · rcases hc with hc | hc
      · apply h4
        simp [hd, hc]
      · cases hlat : raw.latitude with
        | none =>
          apply h4
          simp [hd, hlat]
        | some la =>
          apply h1
          simp [hlat, hc]

/-- Witness for C8 (amended): a request with latitude 200 is rejected by
the `P4` route handler. -/
theorem p4_route_rejects_invalid_geo_witness :
    ∃ msg, p4SearchRoute geoZero sampleDb rawBadLat none = RouteOutcome.badRequest msg :=
  p4_route_rejects_invalid_geo geoZero sampleDb rawBadLat none
    (Or.inr (Or.inl ⟨200, rfl, Or.inr (by norm_num)⟩))

/-- C10: with the default `relevance` sort and both viewer coordinates
supplied, the mounted `search.ts` engines order by ascending distance
only when the latitude is truthy (non-zero): a viewer at latitude
exactly 0 gets rating-descending order in restaurant mode and
newest-first order in deal mode, because the coordinate check is
JavaScript numeric truthiness of the latitude. -/
theorem relevance_order_latitude_truthiness (f g : SearchFiltersTs) (la lo lo₂ : ℚ)
    (hf1 : f.sortBy = .relevance) (hf2 : f.latitude = some 0) (hf3 : f.longitude = some lo)
    (hg1 : g.sortBy = .relevance) (hg2 : g.latitude = some la) (hg3 : g.longitude = some lo₂)
    (hla : la ≠ 0) :
    searchTsRestaurantOrder f = .ratingDesc ∧ searchTsDealOrder f = .createdDesc ∧
      searchTsRestaurantOrder g = .distanceAsc ∧ searchTsDealOrder g = .distanceAsc := by
  unfold searchTsRestaurantOrder searchTsDealOrder
  refine ⟨?_, ?_, ?_, ?_⟩ <;> simp [hf1, hf2, hg1, hg2, ratTruthy, hla]

/-- Witness for C10: a viewer at (0, 5) gets rating/newest ordering, a
viewer at (43, 5) gets ascending distance. -/
theorem relevance_order_latitude_truthiness_witness :
    searchTsRestaurantOrder fLat0 = .ratingDesc ∧ searchTsDealOrder fLat0 = .createdDesc ∧
      searchTsRestaurantOrder fLat43 = .distanceAsc ∧
      searchTsDealOrder fLat43 = .distanceAsc :=
  relevance_order_latitude_truthiness fLat0 fLat43 43 5 5 rfl rfl rfl rfl rfl rfl
    (by norm_num)

end FoodBargain
